import Mathlib

/-!
Verification of the construction-schedule builder
(`src/schedule_generator.py`, function `generate_schedule`).

The generator is a deterministic, single-pass builder: it derives a
complexity factor and a size factor from the blueprint features, computes
per-task durations (with a memoization cache), walks a date cursor through
25 hard-coded tasks with two fork/join points, and finally resolves
predecessor ids to names and computes completion percentages.

Modelling conventions:
  * dates are integers (whole days since an arbitrary epoch); the Python
    code only ever adds whole-day `timedelta`s and compares dates, so this
    is exact;
  * Python `int(x)` (truncation toward zero) is `pyInt` below; Python `//`
    on non-negative ints is `Nat` division; `int(np.sqrt(a)/d)` for a
    natural `a` and positive natural `d` equals `Nat.sqrt a / d`;
  * the fractional constants 0.5, 0.1, 0.05, 0.8, 1.2 are modelled as exact
    rationals.
-/

namespace EcoSched

/-- Python `int(x)`: truncation toward zero. -/
def pyInt (q : ℚ) : ℤ := if 0 ≤ q then ⌊q⌋ else -⌊-q⌋

/-- `base_factor` argument of `calculate_duration`: the string
`'sqrt'` or anything else (the code only ever passes `'sqrt'` or
`'normal'`). -/
inductive Mode where
  | sqrt
  | normal
  deriving DecidableEq, Repr

/-- Lines 26–27 of `schedule_generator.py`, over the full signed number
domain: `if area_sqft > MAX_REASONABLE_SQFT: area_sqft = MAX_REASONABLE_SQFT`.
Only an upper clamp is performed. -/
def clampAreaInt (a : ℤ) : ℤ := if a > 10000 then 10000 else a

/-- The clamp as the spec describes it: `area_sqft` clamped to the range
`[0, 10000]`. (Written from the spec's words, for comparison with
`clampAreaInt`.) -/
def specClampArea (a : ℤ) : ℤ := max 0 (min a 10000)

/-- The same upper clamp restricted to the natural inputs the builder
receives from the UI (`st.number_input(min_value=0)`). -/
def clampArea (a : ℕ) : ℕ := if a > 10000 then 10000 else a

/-- Lines 44–47: `num_rooms = min(num_rooms, 50)`. -/
def clampRooms (r : ℕ) : ℕ := min r 50

/-- Lines 44–47: `num_windows_doors = min(num_windows_doors, 100)`. -/
def clampWd (w : ℕ) : ℕ := min w 100

/-- Lines 50–54: `complexity_factor = min(3.0, 1.0 + bar*0.5 + rooms*0.1
+ wd*0.05)` (applied to the already-clamped room/window counts). -/
def complexityFactor (bar : ℚ) (rooms wd : ℕ) : ℚ :=
  min (1 + bar * (1/2) + (rooms : ℚ) * (1/10) + (wd : ℚ) * (1/20)) 3

/-- Lines 57–65: size factor from the clamped area, with the (unreachable)
1.5 cap kept as in the source. -/
def sizeFactor (area : ℕ) : ℚ :=
  min (if area < 1000 then 4/5 else if area > 3000 then 6/5 else 1) (3/2)

/-- Lines 74–77: `int(np.sqrt(area_sqft)/divisor)` in `'sqrt'` mode,
`int(area_sqft/divisor)` otherwise, for a natural `area` (both equal the
natural floored division). -/
def baseOf (area : ℕ) (mode : Mode) (divisor : ℕ) : ℕ :=
  match mode with
  | .sqrt => Nat.sqrt area / divisor
  | .normal => area / divisor

/-- `calculate_duration` (lines 68–89) without the final
`min(result, maximum_days)` cap:
base, raised to `minimum_days`, scaled by the complexity factor when
enabled, then by the size factor (each scaling truncated separately, as in
the source). -/
def calcDurationRaw (area : ℕ) (cf sf : ℚ) (mode : Mode) (divisor : ℕ)
    (useC : Bool) (minD : ℤ) : ℤ :=
  let r0 : ℤ := max minD (baseOf area mode divisor : ℤ)
  let r1 : ℤ := if useC then pyInt ((r0 : ℚ) * cf) else r0
  pyInt ((r1 : ℚ) * sf)

/-- `calculate_duration` (lines 68–89), cache aside: the raw formula capped
at `maximum_days`. -/
def calcDuration (area : ℕ) (cf sf : ℚ) (mode : Mode) (divisor : ℕ)
    (useC : Bool) (minD : ℤ) (maxD : ℤ) : ℤ :=
  min (calcDurationRaw area cf sf mode divisor useC minD) maxD

/-- Task 11 (lines 293–296), uncapped: `int(max(1, wd/4) * cf * sf)`
(a single truncation of the whole product, unlike `calculate_duration`). -/
def windowDaysRaw (wd : ℕ) (cf sf : ℚ) : ℤ :=
  pyInt ((max 1 (wd / 4) : ℕ) * cf * sf)

/-- Task 12 (lines 315–318), uncapped: `int(max(3, rooms // 2) * cf * sf)`. -/
def plumbingDaysRaw (rooms : ℕ) (cf sf : ℚ) : ℤ :=
  pyInt ((max 3 (rooms / 2) : ℕ) * cf * sf)

/-- Task 17 (lines 419–422), uncapped: `int(max(1, rooms // 2) * cf * sf)`. -/
def doorDaysRaw (rooms : ℕ) (cf sf : ℚ) : ℤ :=
  pyInt ((max 1 (rooms / 2) : ℕ) * cf * sf)

/-- Task 20 (lines 480–483), uncapped: `int(max(2, rooms // 3) * cf * sf)`. -/
def cabinetDaysRaw (rooms : ℕ) (cf sf : ℚ) : ℤ :=
  pyInt ((max 2 (rooms / 3) : ℕ) * cf * sf)

/-- Task 21 (lines 505–508), uncapped: `int(max(1, rooms // 3) * sf)`
(size factor only). -/
def plumbingFixtureDaysRaw (rooms : ℕ) (sf : ℚ) : ℤ :=
  pyInt ((max 1 (rooms / 3) : ℕ) * sf)

/-- The `start_date` entry of `project_info`: a `datetime`, a plain `date`,
or a value that is neither and cannot be combined with a time
(`datetime.combine` raises `TypeError`/`AttributeError`). -/
inductive StartInput where
  | dt (d : ℤ)
  | dateOnly (d : ℤ)
  | invalid
  deriving DecidableEq, Repr

/-- Lines 29–36: a `datetime` is used as is; a `date` is converted to the
`datetime` at its midnight (same day); anything else falls back to
`datetime.now()`. -/
def resolveStart (si : StartInput) (now : ℤ) : ℤ :=
  match si with
  | .dt d => d
  | .dateOnly d => d
  | .invalid => now

/-- The blueprint `analysis_result` fields the builder reads (after the
dictionary `get` defaults have been applied). -/
structure Features where
  building_area_ratio : ℚ
  num_rooms : ℕ
  num_windows_doors : ℕ
  deriving DecidableEq, Repr

/-- The `project_info` fields the builder reads. -/
structure ProjectInfo where
  start_input : StartInput
  area_sqft : ℕ
  deriving DecidableEq, Repr

/-- The per-run context of `generate_schedule` (lines 20–65): clamped
inputs, derived scalars, resolved start date, and the current timestamp. -/
structure Ctx where
  area : ℕ
  rooms : ℕ
  wd : ℕ
  cf : ℚ
  sf : ℚ
  start : ℤ
  now : ℤ
  deriving DecidableEq, Repr

/-- Lines 20–65 of `generate_schedule`: clamp the inputs, derive the
complexity and size factors, and resolve the start date. -/
def mkCtx (f : Features) (p : ProjectInfo) (now : ℤ) : Ctx :=
  let area := clampArea p.area_sqft
  let rooms := clampRooms f.num_rooms
  let wd := clampWd f.num_windows_doors
  { area := area
    rooms := rooms
    wd := wd
    cf := complexityFactor f.building_area_ratio rooms wd
    sf := sizeFactor area
    start := resolveStart p.start_input now
    now := now }

/-- One schedule entry as first appended to the list (before the
dependency/completion post-pass adds `dependencies` and
`completion_percentage`). -/
structure Task where
  task_id : ℕ
  task_name : String
  phase : String
  start_date : ℤ
  end_date : ℤ
  duration : ℤ
  responsible_party : String
  description : String
  critical_path : Bool
  resources_needed : String
  predecessor_tasks : List ℕ
  manual_completion_pct : Option ℕ
  deriving DecidableEq, Repr

/-- A schedule entry after the post-pass (lines 606–639). -/
structure FullTask extends Task where
  dependencies : List String
  completion_percentage : ℤ
  deriving DecidableEq, Repr

def d1 (c : Ctx) : ℤ := calcDuration c.area c.cf c.sf .sqrt 50 false 1 30
def s1 (c : Ctx) : ℤ := c.start
def e1 (c : Ctx) : ℤ := s1 c + d1 c
def d2 (c : Ctx) : ℤ := calcDuration c.area c.cf c.sf .sqrt 50 true 1 30
def s2 (c : Ctx) : ℤ := e1 c + 1
def e2 (c : Ctx) : ℤ := s2 c + d2 c
def d3 (c : Ctx) : ℤ := calcDuration c.area c.cf c.sf .sqrt 30 true 2 30
def s3 (c : Ctx) : ℤ := e2 c + 1
def e3 (c : Ctx) : ℤ := s3 c + d3 c
def d4 (c : Ctx) : ℤ := calcDuration c.area c.cf c.sf .sqrt 70 true 1 30
def s4 (c : Ctx) : ℤ := e3 c + 1
def e4 (c : Ctx) : ℤ := s4 c + d4 c
def d5 (c : Ctx) : ℤ := calcDuration c.area c.cf c.sf .sqrt 100 true 1 30
def s5 (c : Ctx) : ℤ := e4 c + 1
def e5 (c : Ctx) : ℤ := s5 c + d5 c
def d6 (_c : Ctx) : ℤ := 7
def s6 (c : Ctx) : ℤ := s5 c
def e6 (c : Ctx) : ℤ := s6 c + d6 c
def d7 (c : Ctx) : ℤ := calcDuration c.area c.cf c.sf .normal 500 true 2 30
def s7 (c : Ctx) : ℤ := e6 c + 1
def e7 (c : Ctx) : ℤ := s7 c + d7 c
def d8 (c : Ctx) : ℤ := calcDuration c.area c.cf c.sf .normal 400 true 3 30
def s8 (c : Ctx) : ℤ := e7 c + 1
def e8 (c : Ctx) : ℤ := s8 c + d8 c
def d9 (c : Ctx) : ℤ := calcDuration c.area c.cf c.sf .normal 500 true 2 30
def s9 (c : Ctx) : ℤ := e8 c + 1
def e9 (c : Ctx) : ℤ := s9 c + d9 c
def d10 (c : Ctx) : ℤ := calcDuration c.area c.cf c.sf .normal 600 true 2 30
def s10 (c : Ctx) : ℤ := e9 c + 1
def e10 (c : Ctx) : ℤ := s10 c + d10 c
def d11 (c : Ctx) : ℤ := min (windowDaysRaw c.wd c.cf c.sf) 30
def s11 (c : Ctx) : ℤ := e10 c + 1
def e11 (c : Ctx) : ℤ := s11 c + d11 c
def d12 (c : Ctx) : ℤ := min (plumbingDaysRaw c.rooms c.cf c.sf) 30
def s12 (c : Ctx) : ℤ := s11 c
def e12 (c : Ctx) : ℤ := s12 c + d12 c
def d13 (c : Ctx) : ℤ := calcDuration c.area c.cf c.sf .normal 500 true 3 30
def s13 (c : Ctx) : ℤ := s11 c
def e13 (c : Ctx) : ℤ := s13 c + d13 c
def d14 (c : Ctx) : ℤ := calcDuration c.area c.cf c.sf .normal 700 true 2 30
def s14 (c : Ctx) : ℤ := s11 c
def e14 (c : Ctx) : ℤ := s14 c + d14 c
def d15 (c : Ctx) : ℤ := calcDuration c.area c.cf c.sf .normal 1000 true 1 30
def s15 (c : Ctx) : ℤ := max (max (max (e12 c) (e13 c)) (e14 c)) (e11 c) + 1
def e15 (c : Ctx) : ℤ := s15 c + d15 c
def d16 (c : Ctx) : ℤ := calcDuration c.area c.cf c.sf .normal 400 true 3 30
def s16 (c : Ctx) : ℤ := e15 c + 1
def e16 (c : Ctx) : ℤ := s16 c + d16 c
def d17 (c : Ctx) : ℤ := min (doorDaysRaw c.rooms c.cf c.sf) 20
def s17 (c : Ctx) : ℤ := e16 c + 1
def e17 (c : Ctx) : ℤ := s17 c + d17 c
def d18 (c : Ctx) : ℤ := calcDuration c.area c.cf c.sf .normal 500 true 3 30
def s18 (c : Ctx) : ℤ := e17 c + 1
def e18 (c : Ctx) : ℤ := s18 c + d18 c
def d19 (c : Ctx) : ℤ := calcDuration c.area c.cf c.sf .normal 500 true 2 30
def s19 (c : Ctx) : ℤ := e18 c + 1
def e19 (c : Ctx) : ℤ := s19 c + d19 c
def d20 (c : Ctx) : ℤ := min (cabinetDaysRaw c.rooms c.cf c.sf) 15
def s20 (c : Ctx) : ℤ := e19 c + 1
def e20 (c : Ctx) : ℤ := s20 c + d20 c
def d21 (c : Ctx) : ℤ := min (plumbingFixtureDaysRaw c.rooms c.sf) 10
def s21 (c : Ctx) : ℤ := e20 c + 1
def e21 (c : Ctx) : ℤ := s21 c + d21 c
def d22 (c : Ctx) : ℤ := calcDuration c.area c.cf c.sf .normal 1000 false 1 30
def s22 (c : Ctx) : ℤ := s21 c
def e22 (c : Ctx) : ℤ := s22 c + d22 c
def d23 (_c : Ctx) : ℤ := 1
def s23 (c : Ctx) : ℤ := max (e21 c) (e22 c) + 1
def e23 (c : Ctx) : ℤ := s23 c + d23 c
def d24 (c : Ctx) : ℤ := calcDuration c.area c.cf c.sf .normal 2000 false 1 30
def s24 (c : Ctx) : ℤ := e23 c + 1
def e24 (c : Ctx) : ℤ := s24 c + d24 c
def d25 (_c : Ctx) : ℤ := 1
def s25 (c : Ctx) : ℤ := e24 c + 1
def e25 (c : Ctx) : ℤ := s25 c + d25 c

def task1 (c : Ctx) : Task :=
  ⟨1, "Site Clearing and Preparation", "Site Preparation", s1 c, e1 c, d1 c,
   "General Contractor", "Clear site, remove obstacles, grade land", true,
   "Excavator, Dump Truck, Labor Crew", [], none⟩

def task2 (c : Ctx) : Task :=
  ⟨2, "Excavation", "Foundation", s2 c, e2 c, d2 c,
   "Excavation Crew", "Excavate foundation area and utility trenches", true,
   "Excavator, Dump Truck, Labor Crew", [1], none⟩

def task3 (c : Ctx) : Task :=
  ⟨3, "Foundation Formwork", "Foundation", s3 c, e3 c, d3 c,
   "Concrete Contractor", "Build forms for concrete foundation", true,
   "Lumber, Form Hardware, Labor Crew", [2], none⟩

def task4 (c : Ctx) : Task :=
  ⟨4, "Steel Reinforcement Installation", "Foundation", s4 c, e4 c, d4 c,
   "Concrete Contractor", "Install rebar for foundation", true,
   "Rebar, Tie Wire, Labor Crew", [3], none⟩

def task5 (c : Ctx) : Task :=
  ⟨5, "Foundation Concrete Pour", "Foundation", s5 c, e5 c, d5 c,
   "Concrete Contractor", "Pour concrete for foundation", true,
   "Concrete, Pump Truck, Labor Crew", [4], none⟩

def task6 (c : Ctx) : Task :=
  ⟨6, "Foundation Curing", "Foundation", s6 c, e6 c, d6 c,
   "Concrete Contractor", "Allow concrete to cure properly", true,
   "Water, Concrete Curing Blankets", [5], none⟩

def task7 (c : Ctx) : Task :=
  ⟨7, "Floor Framing", "Framing", s7 c, e7 c, d7 c,
   "Framing Contractor", "Frame floor structure", true,
   "Lumber, Nail Gun, Labor Crew", [6], none⟩

def task8 (c : Ctx) : Task :=
  ⟨8, "Wall Framing", "Framing", s8 c, e8 c, d8 c,
   "Framing Contractor", "Frame exterior and interior walls", true,
   "Lumber, Nail Gun, Labor Crew", [7], none⟩

def task9 (c : Ctx) : Task :=
  ⟨9, "Roof Framing", "Framing", s9 c, e9 c, d9 c,
   "Framing Contractor", "Install roof trusses and framing", true,
   "Trusses, Lumber, Nail Gun, Labor Crew", [8], none⟩

def task10 (c : Ctx) : Task :=
  ⟨10, "Roofing Installation", "Exterior", s10 c, e10 c, d10 c,
   "Roofing Contractor", "Install roof sheathing, underlayment, and shingles", true,
   "Shingles, Underlayment, Nail Gun, Labor Crew", [9], none⟩

def task11 (c : Ctx) : Task :=
  ⟨11, "Window and Exterior Door Installation", "Exterior", s11 c, e11 c, d11 c,
   "Carpentry Crew", "Install windows and exterior doors", false,
   "Windows, Doors, Flashing, Labor Crew", [10], none⟩

def task12 (c : Ctx) : Task :=
  ⟨12, "Plumbing Rough-in", "Rough-ins", s12 c, e12 c, d12 c,
   "Plumbing Contractor", "Install rough plumbing", true,
   "Pipes, Fittings, Tools, Labor Crew", [9], none⟩

def task13 (c : Ctx) : Task :=
  ⟨13, "Electrical Rough-in", "Rough-ins", s13 c, e13 c, d13 c,
   "Electrical Contractor", "Install rough electrical wiring", true,
   "Wiring, Boxes, Panels, Labor Crew", [9], none⟩

def task14 (c : Ctx) : Task :=
  ⟨14, "HVAC Rough-in", "Rough-ins", s14 c, e14 c, d14 c,
   "HVAC Contractor", "Install HVAC ductwork and units", false,
   "Ductwork, HVAC Units, Tools, Labor Crew", [9], none⟩

def task15 (c : Ctx) : Task :=
  ⟨15, "Insulation Installation", "Rough-ins", s15 c, e15 c, d15 c,
   "Insulation Contractor", "Install insulation in walls and ceiling", true,
   "Insulation, Staple Gun, Labor Crew", [12, 13, 14], none⟩

def task16 (c : Ctx) : Task :=
  ⟨16, "Drywall Installation", "Interior Finishing", s16 c, e16 c, d16 c,
   "Drywall Contractor", "Install and finish drywall", true,
   "Drywall Sheets, Joint Compound, Tools, Labor Crew", [15], none⟩

def task17 (c : Ctx) : Task :=
  ⟨17, "Interior Door Installation", "Interior Finishing", s17 c, e17 c, d17 c,
   "Carpentry Crew", "Install interior doors and trim", false,
   "Doors, Trim, Nail Gun, Labor Crew", [16], none⟩

def task18 (c : Ctx) : Task :=
  ⟨18, "Painting", "Interior Finishing", s18 c, e18 c, d18 c,
   "Painting Contractor", "Prime and paint walls and ceilings", true,
   "Paint, Brushes, Rollers, Labor Crew", [17], none⟩

def task19 (c : Ctx) : Task :=
  ⟨19, "Flooring Installation", "Interior Finishing", s19 c, e19 c, d19 c,
   "Flooring Contractor", "Install flooring throughout the building", true,
   "Flooring Materials, Tools, Labor Crew", [18], none⟩

def task20 (c : Ctx) : Task :=
  ⟨20, "Cabinetry and Countertop Installation", "Interior Finishing", s20 c, e20 c, d20 c,
   "Cabinet Installer", "Install kitchen and bathroom cabinets and countertops", true,
   "Cabinets, Countertops, Tools, Labor Crew", [19], none⟩

def task21 (c : Ctx) : Task :=
  ⟨21, "Plumbing Fixtures Installation", "Final Finishing", s21 c, e21 c, d21 c,
   "Plumbing Contractor", "Install sinks, toilets, faucets, and other plumbing fixtures", false,
   "Fixtures, Tools, Labor Crew", [20], none⟩

def task22 (c : Ctx) : Task :=
  ⟨22, "Electrical Fixtures Installation", "Final Finishing", s22 c, e22 c, d22 c,
   "Electrical Contractor", "Install light fixtures, outlets, switches, and electrical panels", false,
   "Fixtures, Tools, Labor Crew", [20], none⟩

def task23 (c : Ctx) : Task :=
  ⟨23, "Appliance Installation", "Final Finishing", s23 c, e23 c, d23 c,
   "General Contractor", "Install kitchen and laundry appliances", true,
   "Appliances, Tools, Labor Crew", [21, 22], none⟩

def task24 (c : Ctx) : Task :=
  ⟨24, "Final Cleaning", "Final Finishing", s24 c, e24 c, d24 c,
   "Cleaning Crew", "Clean entire building interior and exterior", true,
   "Cleaning Supplies, Labor Crew", [23], none⟩

def task25 (c : Ctx) : Task :=
  ⟨25, "Final Inspection", "Final Finishing", s25 c, e25 c, d25 c,
   "Building Inspector", "Final inspection and certificate of occupancy", true,
   "Inspector", [24], none⟩

/-- The schedule list as built by lines 92–603, before the post-pass. -/
def rawSchedule (c : Ctx) : List Task :=
  [task1 c, task2 c, task3 c, task4 c, task5 c, task6 c, task7 c, task8 c,
   task9 c, task10 c, task11 c, task12 c, task13 c, task14 c, task15 c,
   task16 c, task17 c, task18 c, task19 c, task20 c, task21 c, task22 c,
   task23 c, task24 c, task25 c]

/-- Lines 609–613: look each predecessor id up in the schedule and keep the
matching task's name; an id with no matching task is silently dropped. -/
def resolveDeps (sch : List Task) (preds : List ℕ) : List String :=
  preds.filterMap fun pid =>
    (sch.find? fun t => t.task_id == pid).map fun t => t.task_name

/-- Lines 619–639: completion percentage from `(today, start, end)` —
100 once past the end, 0 before the start, otherwise the truncated linear
interpolation clamped to `[0, 100]`, with 50 substituted when the task
spans zero days. -/
def completionPercentage (s e today : ℤ) : ℤ :=
  if e < today then 100
  else if s > today then 0
  else
    let total_days := e - s
    let days_passed := today - s
    if 0 < total_days then
      min 100 (max 0 (pyInt ((days_passed : ℚ) / (total_days : ℚ) * 100)))
    else 50

/-- The post-pass of lines 606–639 applied to one task. -/
def toFull (sch : List Task) (today : ℤ) (t : Task) : FullTask :=
  { t with
    dependencies := resolveDeps sch t.predecessor_tasks
    completion_percentage := completionPercentage t.start_date t.end_date today }

/-- `generate_schedule` (lines 5–641): build the 25 tasks, then resolve
dependencies and completion percentages. `now` is the current timestamp
(used both for the invalid-start fallback and as `today`). -/
def generateSchedule (f : Features) (p : ProjectInfo) (now : ℤ) : List FullTask :=
  let c := mkCtx f p now
  let raw := rawSchedule c
  raw.map (toFull raw now)

/-- The memoization key of line 70:
`f"{base_factor}_{divisor}_{use_complexity}_{minimum_days}"` — the four
components determine the string, so the key is the 4-tuple.  Note that
`maximum_days` is not part of the key. -/
abbrev CacheKey := Mode × ℕ × Bool × ℤ

/-- The `calculation_cache` dictionary (line 18). -/
abbrev Cache := List (CacheKey × ℤ)

/-- `calculate_duration` exactly as written (lines 68–89): consult the
cache first, otherwise compute, cap, store and return. -/
def calcDurationCached (area : ℕ) (cf sf : ℚ) (mode : Mode) (divisor : ℕ)
    (useC : Bool) (minD maxD : ℤ) (cache : Cache) : ℤ × Cache :=
  let key : CacheKey := (mode, divisor, useC, minD)
  match cache.lookup key with
  | some v => (v, cache)
  | none =>
    let r := calcDuration area cf sf mode divisor useC minD maxD
    (r, (key, r) :: cache)

/-- The schedule list of lines 92–603 built exactly as the source does:
every `calculate_duration` call goes through the memoization cache, which
starts empty and is threaded through the calls in program order.  (The
inline duration computations of tasks 11, 12, 17, 20 and 21 do not use the
cache, as in the source.) -/
def rawScheduleCached (c : Ctx) : List Task :=
  let q1 := calcDurationCached c.area c.cf c.sf .sqrt 50 false 1 30 []
  let se1 := c.start
  let ee1 := se1 + q1.1
  let q2 := calcDurationCached c.area c.cf c.sf .sqrt 50 true 1 30 q1.2
  let se2 := ee1 + 1
  let ee2 := se2 + q2.1
  let q3 := calcDurationCached c.area c.cf c.sf .sqrt 30 true 2 30 q2.2
  let se3 := ee2 + 1
  let ee3 := se3 + q3.1
  let q4 := calcDurationCached c.area c.cf c.sf .sqrt 70 true 1 30 q3.2
  let se4 := ee3 + 1
  let ee4 := se4 + q4.1
  let q5 := calcDurationCached c.area c.cf c.sf .sqrt 100 true 1 30 q4.2
  let se5 := ee4 + 1
  let ee5 := se5 + q5.1
  let se6 := se5
  let ee6 := se6 + 7
  let q7 := calcDurationCached c.area c.cf c.sf .normal 500 true 2 30 q5.2
  let se7 := ee6 + 1
  let ee7 := se7 + q7.1
  let q8 := calcDurationCached c.area c.cf c.sf .normal 400 true 3 30 q7.2
  let se8 := ee7 + 1
  let ee8 := se8 + q8.1
  let q9 := calcDurationCached c.area c.cf c.sf .normal 500 true 2 30 q8.2
  let se9 := ee8 + 1
  let ee9 := se9 + q9.1
  let q10 := calcDurationCached c.area c.cf c.sf .normal 600 true 2 30 q9.2
  let se10 := ee9 + 1
  let ee10 := se10 + q10.1
  let dd11 := min (windowDaysRaw c.wd c.cf c.sf) 30
  let se11 := ee10 + 1
  let ee11 := se11 + dd11
  let dd12 := min (plumbingDaysRaw c.rooms c.cf c.sf) 30
  let se12 := se11
  let ee12 := se12 + dd12
  let q13 := calcDurationCached c.area c.cf c.sf .normal 500 true 3 30 q10.2
  let se13 := se11
  let ee13 := se13 + q13.1
  let q14 := calcDurationCached c.area c.cf c.sf .normal 700 true 2 30 q13.2
  let se14 := se11
  let ee14 := se14 + q14.1
  let q15 := calcDurationCached c.area c.cf c.sf .normal 1000 true 1 30 q14.2
  let se15 := max (max (max ee12 ee13) ee14) ee11 + 1
  let ee15 := se15 + q15.1
  let q16 := calcDurationCached c.area c.cf c.sf .normal 400 true 3 30 q15.2
  let se16 := ee15 + 1
  let ee16 := se16 + q16.1
  let dd17 := min (doorDaysRaw c.rooms c.cf c.sf) 20
  let se17 := ee16 + 1
  let ee17 := se17 + dd17
  let q18 := calcDurationCached c.area c.cf c.sf .normal 500 true 3 30 q16.2
  let se18 := ee17 + 1
  let ee18 := se18 + q18.1
  let q19 := calcDurationCached c.area c.cf c.sf .normal 500 true 2 30 q18.2
  let se19 := ee18 + 1
  let ee19 := se19 + q19.1
  let dd20 := min (cabinetDaysRaw c.rooms c.cf c.sf) 15
  let se20 := ee19 + 1
  let ee20 := se20 + dd20
  let dd21 := min (plumbingFixtureDaysRaw c.rooms c.sf) 10
  let se21 := ee20 + 1
  let ee21 := se21 + dd21
  let q22 := calcDurationCached c.area c.cf c.sf .normal 1000 false 1 30 q19.2
  let se22 := se21
  let ee22 := se22 + q22.1
  let se23 := max ee21 ee22 + 1
  let ee23 := se23 + 1
  let q24 := calcDurationCached c.area c.cf c.sf .normal 2000 false 1 30 q22.2
  let se24 := ee23 + 1
  let ee24 := se24 + q24.1
  let se25 := ee24 + 1
  let ee25 := se25 + 1
  [{ task1 c with start_date := se1, end_date := ee1, duration := q1.1 },
   { task2 c with start_date := se2, end_date := ee2, duration := q2.1 },
   { task3 c with start_date := se3, end_date := ee3, duration := q3.1 },
   { task4 c with start_date := se4, end_date := ee4, duration := q4.1 },
   { task5 c with start_date := se5, end_date := ee5, duration := q5.1 },
   { task6 c with start_date := se6, end_date := ee6, duration := 7 },
   { task7 c with start_date := se7, end_date := ee7, duration := q7.1 },
   { task8 c with start_date := se8, end_date := ee8, duration := q8.1 },
   { task9 c with start_date := se9, end_date := ee9, duration := q9.1 },
   { task10 c with start_date := se10, end_date := ee10, duration := q10.1 },
   { task11 c with start_date := se11, end_date := ee11, duration := dd11 },
   { task12 c with start_date := se12, end_date := ee12, duration := dd12 },
   { task13 c with start_date := se13, end_date := ee13, duration := q13.1 },
   { task14 c with start_date := se14, end_date := ee14, duration := q14.1 },
   { task15 c with start_date := se15, end_date := ee15, duration := q15.1 },
   { task16 c with start_date := se16, end_date := ee16, duration := q16.1 },
   { task17 c with start_date := se17, end_date := ee17, duration := dd17 },
   { task18 c with start_date := se18, end_date := ee18, duration := q18.1 },
   { task19 c with start_date := se19, end_date := ee19, duration := q19.1 },
   { task20 c with start_date := se20, end_date := ee20, duration := dd20 },
   { task21 c with start_date := se21, end_date := ee21, duration := dd21 },
   { task22 c with start_date := se22, end_date := ee22, duration := q22.1 },
   { task23 c with start_date := se23, end_date := ee23, duration := 1 },
   { task24 c with start_date := se24, end_date := ee24, duration := q24.1 },
   { task25 c with start_date := se25, end_date := ee25, duration := 1 }]

/-- `generate_schedule` with the memoization cache left in place: the
builder as literally written. -/
def generateScheduleCached (f : Features) (p : ProjectInfo) (now : ℤ) : List FullTask :=
  let c := mkCtx f p now
  let raw := rawScheduleCached c
  raw.map (toFull raw now)

/-- The uncapped duration formula of each task, by task id: the
`calculate_duration` body without its final `min(result, maximum_days)`
for the cached tasks, and the uncapped inline product for tasks
11, 12, 17, 20 and 21.  (Ids 6, 23 and 25 have fixed durations and no
formula; they are mapped to 0 here and excluded by the claims.) -/
def uncappedDuration (c : Ctx) : ℕ → ℤ
  | 1 => calcDurationRaw c.area c.cf c.sf .sqrt 50 false 1
  | 2 => calcDurationRaw c.area c.cf c.sf .sqrt 50 true 1
  | 3 => calcDurationRaw c.area c.cf c.sf .sqrt 30 true 2
  | 4 => calcDurationRaw c.area c.cf c.sf .sqrt 70 true 1
  | 5 => calcDurationRaw c.area c.cf c.sf .sqrt 100 true 1
  | 7 => calcDurationRaw c.area c.cf c.sf .normal 500 true 2
  | 8 => calcDurationRaw c.area c.cf c.sf .normal 400 true 3
  | 9 => calcDurationRaw c.area c.cf c.sf .normal 500 true 2
  | 10 => calcDurationRaw c.area c.cf c.sf .normal 600 true 2
  | 11 => windowDaysRaw c.wd c.cf c.sf
  | 12 => plumbingDaysRaw c.rooms c.cf c.sf
  | 13 => calcDurationRaw c.area c.cf c.sf .normal 500 true 3
  | 14 => calcDurationRaw c.area c.cf c.sf .normal 700 true 2
  | 15 => calcDurationRaw c.area c.cf c.sf .normal 1000 true 1
  | 16 => calcDurationRaw c.area c.cf c.sf .normal 400 true 3
  | 17 => doorDaysRaw c.rooms c.cf c.sf
  | 18 => calcDurationRaw c.area c.cf c.sf .normal 500 true 3
  | 19 => calcDurationRaw c.area c.cf c.sf .normal 500 true 2
  | 20 => cabinetDaysRaw c.rooms c.cf c.sf
  | 21 => plumbingFixtureDaysRaw c.rooms c.sf
  | 22 => calcDurationRaw c.area c.cf c.sf .normal 1000 false 1
  | 24 => calcDurationRaw c.area c.cf c.sf .normal 2000 false 1
  | _ => 0

/-- The `maximum_days` cap of each task, by task id: `calculate_duration`
is always called with the default cap 30; the inline computations cap
task 17 at 20, task 20 at 15 and task 21 at 10 (tasks 11 and 12 at 30). -/
def durationCap : ℕ → ℤ
  | 17 => 20
  | 20 => 15
  | 21 => 10
  | _ => 30

/-- The name of the task with the given id (ids 1–25). -/
def taskNameOf : ℕ → String
  | 1 => "Site Clearing and Preparation"
  | 2 => "Excavation"
  | 3 => "Foundation Formwork"
  | 4 => "Steel Reinforcement Installation"
  | 5 => "Foundation Concrete Pour"
  | 6 => "Foundation Curing"
  | 7 => "Floor Framing"
  | 8 => "Wall Framing"
  | 9 => "Roof Framing"
  | 10 => "Roofing Installation"
  | 11 => "Window and Exterior Door Installation"
  | 12 => "Plumbing Rough-in"
  | 13 => "Electrical Rough-in"
  | 14 => "HVAC Rough-in"
  | 15 => "Insulation Installation"
  | 16 => "Drywall Installation"
  | 17 => "Interior Door Installation"
  | 18 => "Painting"
  | 19 => "Flooring Installation"
  | 20 => "Cabinetry and Countertop Installation"
  | 21 => "Plumbing Fixtures Installation"
  | 22 => "Electrical Fixtures Installation"
  | 23 => "Appliance Installation"
  | 24 => "Final Cleaning"
  | 25 => "Final Inspection"
  | _ => ""

/-- The completion rule as the spec words it: 0 before the start, 100 past
the end, else the floored linear interpolation clamped to `[0, 100]`, with
50 substituted when the task spans zero days.  (Written from the spec, for
comparison with `completionPercentage`.) -/
def specCompletion (s e today : ℤ) : ℤ :=
  if s > today then 0
  else if e < today then 100
  else if e - s = 0 then 50
  else min 100 (max 0 ⌊((today - s : ℚ) / ((e - s : ℤ) : ℚ)) * 100⌋)

/-- Concrete inputs used by the witnesses and counterexamples: the spec's
worked example (`area_sqft = 1000`, `building_area_ratio = 0.5`,
`num_rooms = 5`, `num_windows_doors = 10`), with day 0 as the start date
and current day. -/
def F0 : Features := ⟨1/2, 5, 10⟩

def P0 : ProjectInfo := ⟨.dt 0, 1000⟩

def c0 : Ctx := mkCtx F0 P0 0

lemma pyInt_eq_floor {q : ℚ} (h : 0 ≤ q) : pyInt q = ⌊q⌋ := if_pos h

lemma pyInt_eval {q : ℚ} {z : ℤ} (h0 : 0 ≤ q) (h : ⌊q⌋ = z) : pyInt q = z := by
  rw [pyInt_eq_floor h0, h]

lemma sqrt_1000 : Nat.sqrt 1000 = 31 := (Nat.eq_sqrt.mpr (by norm_num)).symm

lemma c0_area : c0.area = 1000 := rfl

lemma c0_rooms : c0.rooms = 5 := rfl

lemma c0_wd : c0.wd = 10 := rfl

lemma c0_cf : c0.cf = 9/4 := by
  show complexityFactor (1/2) (clampRooms 5) (clampWd 10) = 9/4
  rw [complexityFactor, clampRooms, clampWd]
  rw [min_eq_left (by norm_num)]
  norm_num

lemma c0_sf : c0.sf = 1 := by
  show sizeFactor (clampArea 1000) = 1
  rw [sizeFactor]
  norm_num [clampArea]

lemma d5_c0 : d5 c0 = 2 := by
  have hbase : baseOf c0.area .sqrt 100 = 0 := by
    rw [c0_area, baseOf, sqrt_1000]
  have h1 : pyInt (9/4 : ℚ) = 2 := pyInt_eval (by norm_num) (by norm_num)
  have h2 : pyInt (2 : ℚ) = 2 := pyInt_eval (by norm_num) (by norm_num)
  simp only [d5, calcDuration, calcDurationRaw, hbase, c0_cf, c0_sf]
  norm_num [h1, h2]

lemma pyInt_nonneg {q : ℚ} (h : 0 ≤ q) : 0 ≤ pyInt q := by
  rw [pyInt_eq_floor h]
  exact Int.floor_nonneg.mpr h

lemma complexityFactor_nonneg {bar : ℚ} (rooms wd : ℕ) (h : 0 ≤ bar) :
    0 ≤ complexityFactor bar rooms wd := by
  refine le_min (by positivity) (by norm_num)

lemma sizeFactor_nonneg (area : ℕ) : 0 ≤ sizeFactor area := by
  unfold sizeFactor
  split_ifs <;> norm_num

lemma calcDurationRaw_nonneg {area : ℕ} {cf sf : ℚ} (hcf : 0 ≤ cf)
    (hsf : 0 ≤ sf) (mode : Mode) (divisor : ℕ) (useC : Bool) (minD : ℤ) :
    0 ≤ calcDurationRaw area cf sf mode divisor useC minD := by
  have hr0 : (0 : ℤ) ≤ max minD (baseOf area mode divisor : ℤ) :=
    le_max_of_le_right (Int.ofNat_nonneg _)
  have hr1 : (0 : ℤ) ≤ (if useC then
      pyInt ((max minD ((baseOf area mode divisor : ℕ) : ℤ) : ℚ) * cf)
      else max minD ((baseOf area mode divisor : ℕ) : ℤ)) := by
    cases useC
    · simp only [Bool.false_eq_true, if_false]
      exact hr0
    · simp only [if_true]
      exact pyInt_nonneg (mul_nonneg (by exact_mod_cast hr0) hcf)
  simp only [calcDurationRaw]
  exact pyInt_nonneg (mul_nonneg (by exact_mod_cast hr1) hsf)

lemma calcDuration_nonneg {area : ℕ} {cf sf : ℚ} (hcf : 0 ≤ cf)
    (hsf : 0 ≤ sf) (mode : Mode) (divisor : ℕ) (useC : Bool) (minD : ℤ)
    {maxD : ℤ} (hmax : 0 ≤ maxD) :
    0 ≤ calcDuration area cf sf mode divisor useC minD maxD :=
  le_min (calcDurationRaw_nonneg hcf hsf mode divisor useC minD) hmax

/-- Running the cached builder leaves exactly the reference schedule:
each cache lookup either misses (and stores the freshly computed,
capped value) or hits a key whose stored value is the very
`calcDuration` result the reference computes, since every call site
uses the default `maximum_days = 30` and the key determines the other
four arguments. -/
lemma rawScheduleCached_eq (c : Ctx) : rawScheduleCached c = rawSchedule c := by
  have ha1 : (calcDurationCached c.area c.cf c.sf Mode.sqrt 50 false 1 30
      ([] : Cache)).1 = d1 c := rfl
  have hb1 : (calcDurationCached c.area c.cf c.sf Mode.sqrt 50 false 1 30
      ([] : Cache)).2 =
      ([((Mode.sqrt, 50, false, 1), d1 c)] : Cache) := rfl
  have ha2 : (calcDurationCached c.area c.cf c.sf Mode.sqrt 50 true 1 30
      ([((Mode.sqrt, 50, false, 1), d1 c)] : Cache)).1 = d2 c := rfl
  have hb2 : (calcDurationCached c.area c.cf c.sf Mode.sqrt 50 true 1 30
      ([((Mode.sqrt, 50, false, 1), d1 c)] : Cache)).2 =
      ([((Mode.sqrt, 50, true, 1), d2 c), ((Mode.sqrt, 50, false, 1), d1 c)] : Cache) := rfl
  have ha3 : (calcDurationCached c.area c.cf c.sf Mode.sqrt 30 true 2 30
      ([((Mode.sqrt, 50, true, 1), d2 c), ((Mode.sqrt, 50, false, 1), d1 c)] : Cache)).1 = d3 c := rfl
  have hb3 : (calcDurationCached c.area c.cf c.sf Mode.sqrt 30 true 2 30
      ([((Mode.sqrt, 50, true, 1), d2 c), ((Mode.sqrt, 50, false, 1), d1 c)] : Cache)).2 =
      ([((Mode.sqrt, 30, true, 2), d3 c), ((Mode.sqrt, 50, true, 1), d2 c), ((Mode.sqrt, 50, false, 1), d1 c)] : Cache) := rfl
  have ha4 : (calcDurationCached c.area c.cf c.sf Mode.sqrt 70 true 1 30
      ([((Mode.sqrt, 30, true, 2), d3 c), ((Mode.sqrt, 50, true, 1), d2 c), ((Mode.sqrt, 50, false, 1), d1 c)] : Cache)).1 = d4 c := rfl
  have hb4 : (calcDurationCached c.area c.cf c.sf Mode.sqrt 70 true 1 30
      ([((Mode.sqrt, 30, true, 2), d3 c), ((Mode.sqrt, 50, true, 1), d2 c), ((Mode.sqrt, 50, false, 1), d1 c)] : Cache)).2 =
      ([((Mode.sqrt, 70, true, 1), d4 c), ((Mode.sqrt, 30, true, 2), d3 c), ((Mode.sqrt, 50, true, 1), d2 c), ((Mode.sqrt, 50, false, 1), d1 c)] : Cache) := rfl
  have ha5 : (calcDurationCached c.area c.cf c.sf Mode.sqrt 100 true 1 30
      ([((Mode.sqrt, 70, true, 1), d4 c), ((Mode.sqrt, 30, true, 2), d3 c), ((Mode.sqrt, 50, true, 1), d2 c), ((Mode.sqrt, 50, false, 1), d1 c)] : Cache)).1 = d5 c := rfl
  have hb5 : (calcDurationCached c.area c.cf c.sf Mode.sqrt 100 true 1 30
      ([((Mode.sqrt, 70, true, 1), d4 c), ((Mode.sqrt, 30, true, 2), d3 c), ((Mode.sqrt, 50, true, 1), d2 c), ((Mode.sqrt, 50, false, 1), d1 c)] : Cache)).2 =
      ([((Mode.sqrt, 100, true, 1), d5 c), ((Mode.sqrt, 70, true, 1), d4 c), ((Mode.sqrt, 30, true, 2), d3 c), ((Mode.sqrt, 50, true, 1), d2 c), ((Mode.sqrt, 50, false, 1), d1 c)] : Cache) := rfl
  have ha6 : (calcDurationCached c.area c.cf c.sf Mode.normal 500 true 2 30
      ([((Mode.sqrt, 100, true, 1), d5 c), ((Mode.sqrt, 70, true, 1), d4 c), ((Mode.sqrt, 30, true, 2), d3 c), ((Mode.sqrt, 50, true, 1), d2 c), ((Mode.sqrt, 50, false, 1), d1 c)] : Cache)).1 = d7 c := rfl
  have hb6 : (calcDurationCached c.area c.cf c.sf Mode.normal 500 true 2 30
      ([((Mode.sqrt, 100, true, 1), d5 c), ((Mode.sqrt, 70, true, 1), d4 c), ((Mode.sqrt, 30, true, 2), d3 c), ((Mode.sqrt, 50, true, 1), d2 c), ((Mode.sqrt, 50, false, 1), d1 c)] : Cache)).2 =
      ([((Mode.normal, 500, true, 2), d7 c), ((Mode.sqrt, 100, true, 1), d5 c), ((Mode.sqrt, 70, true, 1), d4 c), ((Mode.sqrt, 30, true, 2), d3 c), ((Mode.sqrt, 50, true, 1), d2 c), ((Mode.sqrt, 50, false, 1), d1 c)] : Cache) := rfl
  have ha7 : (calcDurationCached c.area c.cf c.sf Mode.normal 400 true 3 30
      ([((Mode.normal, 500, true, 2), d7 c), ((Mode.sqrt, 100, true, 1), d5 c), ((Mode.sqrt, 70, true, 1), d4 c), ((Mode.sqrt, 30, true, 2), d3 c), ((Mode.sqrt, 50, true, 1), d2 c), ((Mode.sqrt, 50, false, 1), d1 c)] : Cache)).1 = d8 c := rfl
  have hb7 : (calcDurationCached c.area c.cf c.sf Mode.normal 400 true 3 30
      ([((Mode.normal, 500, true, 2), d7 c), ((Mode.sqrt, 100, true, 1), d5 c), ((Mode.sqrt, 70, true, 1), d4 c), ((Mode.sqrt, 30, true, 2), d3 c), ((Mode.sqrt, 50, true, 1), d2 c), ((Mode.sqrt, 50, false, 1), d1 c)] : Cache)).2 =
      ([((Mode.normal, 400, true, 3), d8 c), ((Mode.normal, 500, true, 2), d7 c), ((Mode.sqrt, 100, true, 1), d5 c), ((Mode.sqrt, 70, true, 1), d4 c), ((Mode.sqrt, 30, true, 2), d3 c), ((Mode.sqrt, 50, true, 1), d2 c), ((Mode.sqrt, 50, false, 1), d1 c)] : Cache) := rfl
  have ha8 : (calcDurationCached c.area c.cf c.sf Mode.normal 500 true 2 30
      ([((Mode.normal, 400, true, 3), d8 c), ((Mode.normal, 500, true, 2), d7 c), ((Mode.sqrt, 100, true, 1), d5 c), ((Mode.sqrt, 70, true, 1), d4 c), ((Mode.sqrt, 30, true, 2), d3 c), ((Mode.sqrt, 50, true, 1), d2 c), ((Mode.sqrt, 50, false, 1), d1 c)] : Cache)).1 = d9 c := rfl
  have hb8 : (calcDurationCached c.area c.cf c.sf Mode.normal 500 true 2 30
      ([((Mode.normal, 400, true, 3), d8 c), ((Mode.normal, 500, true, 2), d7 c), ((Mode.sqrt, 100, true, 1), d5 c), ((Mode.sqrt, 70, true, 1), d4 c), ((Mode.sqrt, 30, true, 2), d3 c), ((Mode.sqrt, 50, true, 1), d2 c), ((Mode.sqrt, 50, false, 1), d1 c)] : Cache)).2 =
      ([((Mode.normal, 400, true, 3), d8 c), ((Mode.normal, 500, true, 2), d7 c), ((Mode.sqrt, 100, true, 1), d5 c), ((Mode.sqrt, 70, true, 1), d4 c), ((Mode.sqrt, 30, true, 2), d3 c), ((Mode.sqrt, 50, true, 1), d2 c), ((Mode.sqrt, 50, false, 1), d1 c)] : Cache) := rfl
  have ha9 : (calcDurationCached c.area c.cf c.sf Mode.normal 600 true 2 30
      ([((Mode.normal, 400, true, 3), d8 c), ((Mode.normal, 500, true, 2), d7 c), ((Mode.sqrt, 100, true, 1), d5 c), ((Mode.sqrt, 70, true, 1), d4 c), ((Mode.sqrt, 30, true, 2), d3 c), ((Mode.sqrt, 50, true, 1), d2 c), ((Mode.sqrt, 50, false, 1), d1 c)] : Cache)).1 = d10 c := rfl
  have hb9 : (calcDurationCached c.area c.cf c.sf Mode.normal 600 true 2 30
      ([((Mode.normal, 400, true, 3), d8 c), ((Mode.normal, 500, true, 2), d7 c), ((Mode.sqrt, 100, true, 1), d5 c), ((Mode.sqrt, 70, true, 1), d4 c), ((Mode.sqrt, 30, true, 2), d3 c), ((Mode.sqrt, 50, true, 1), d2 c), ((Mode.sqrt, 50, false, 1), d1 c)] : Cache)).2 =
      ([((Mode.normal, 600, true, 2), d10 c), ((Mode.normal, 400, true, 3), d8 c), ((Mode.normal, 500, true, 2), d7 c), ((Mode.sqrt, 100, true, 1), d5 c), ((Mode.sqrt, 70, true, 1), d4 c), ((Mode.sqrt, 30, true, 2), d3 c), ((Mode.sqrt, 50, true, 1), d2 c), ((Mode.sqrt, 50, false, 1), d1 c)] : Cache) := rfl
  have ha10 : (calcDurationCached c.area c.cf c.sf Mode.normal 500 true 3 30
      ([((Mode.normal, 600, true, 2), d10 c), ((Mode.normal, 400, true, 3), d8 c), ((Mode.normal, 500, true, 2), d7 c), ((Mode.sqrt, 100, true, 1), d5 c), ((Mode.sqrt, 70, true, 1), d4 c), ((Mode.sqrt, 30, true, 2), d3 c), ((Mode.sqrt, 50, true, 1), d2 c), ((Mode.sqrt, 50, false, 1), d1 c)] : Cache)).1 = d13 c := rfl
  have hb10 : (calcDurationCached c.area c.cf c.sf Mode.normal 500 true 3 30
      ([((Mode.normal, 600, true, 2), d10 c), ((Mode.normal, 400, true, 3), d8 c), ((Mode.normal, 500, true, 2), d7 c), ((Mode.sqrt, 100, true, 1), d5 c), ((Mode.sqrt, 70, true, 1), d4 c), ((Mode.sqrt, 30, true, 2), d3 c), ((Mode.sqrt, 50, true, 1), d2 c), ((Mode.sqrt, 50, false, 1), d1 c)] : Cache)).2 =
      ([((Mode.normal, 500, true, 3), d13 c), ((Mode.normal, 600, true, 2), d10 c), ((Mode.normal, 400, true, 3), d8 c), ((Mode.normal, 500, true, 2), d7 c), ((Mode.sqrt, 100, true, 1), d5 c), ((Mode.sqrt, 70, true, 1), d4 c), ((Mode.sqrt, 30, true, 2), d3 c), ((Mode.sqrt, 50, true, 1), d2 c), ((Mode.sqrt, 50, false, 1), d1 c)] : Cache) := rfl
  have ha11 : (calcDurationCached c.area c.cf c.sf Mode.normal 700 true 2 30
      ([((Mode.normal, 500, true, 3), d13 c), ((Mode.normal, 600, true, 2), d10 c), ((Mode.normal, 400, true, 3), d8 c), ((Mode.normal, 500, true, 2), d7 c), ((Mode.sqrt, 100, true, 1), d5 c), ((Mode.sqrt, 70, true, 1), d4 c), ((Mode.sqrt, 30, true, 2), d3 c), ((Mode.sqrt, 50, true, 1), d2 c), ((Mode.sqrt, 50, false, 1), d1 c)] : Cache)).1 = d14 c := rfl
  have hb11 : (calcDurationCached c.area c.cf c.sf Mode.normal 700 true 2 30
      ([((Mode.normal, 500, true, 3), d13 c), ((Mode.normal, 600, true, 2), d10 c), ((Mode.normal, 400, true, 3), d8 c), ((Mode.normal, 500, true, 2), d7 c), ((Mode.sqrt, 100, true, 1), d5 c), ((Mode.sqrt, 70, true, 1), d4 c), ((Mode.sqrt, 30, true, 2), d3 c), ((Mode.sqrt, 50, true, 1), d2 c), ((Mode.sqrt, 50, false, 1), d1 c)] : Cache)).2 =
      ([((Mode.normal, 700, true, 2), d14 c), ((Mode.normal, 500, true, 3), d13 c), ((Mode.normal, 600, true, 2), d10 c), ((Mode.normal, 400, true, 3), d8 c), ((Mode.normal, 500, true, 2), d7 c), ((Mode.sqrt, 100, true, 1), d5 c), ((Mode.sqrt, 70, true, 1), d4 c), ((Mode.sqrt, 30, true, 2), d3 c), ((Mode.sqrt, 50, true, 1), d2 c), ((Mode.sqrt, 50, false, 1), d1 c)] : Cache) := rfl
  have ha12 : (calcDurationCached c.area c.cf c.sf Mode.normal 1000 true 1 30
      ([((Mode.normal, 700, true, 2), d14 c), ((Mode.normal, 500, true, 3), d13 c), ((Mode.normal, 600, true, 2), d10 c), ((Mode.normal, 400, true, 3), d8 c), ((Mode.normal, 500, true, 2), d7 c), ((Mode.sqrt, 100, true, 1), d5 c), ((Mode.sqrt, 70, true, 1), d4 c), ((Mode.sqrt, 30, true, 2), d3 c), ((Mode.sqrt, 50, true, 1), d2 c), ((Mode.sqrt, 50, false, 1), d1 c)] : Cache)).1 = d15 c := rfl
  have hb12 : (calcDurationCached c.area c.cf c.sf Mode.normal 1000 true 1 30
      ([((Mode.normal, 700, true, 2), d14 c), ((Mode.normal, 500, true, 3), d13 c), ((Mode.normal, 600, true, 2), d10 c), ((Mode.normal, 400, true, 3), d8 c), ((Mode.normal, 500, true, 2), d7 c), ((Mode.sqrt, 100, true, 1), d5 c), ((Mode.sqrt, 70, true, 1), d4 c), ((Mode.sqrt, 30, true, 2), d3 c), ((Mode.sqrt, 50, true, 1), d2 c), ((Mode.sqrt, 50, false, 1), d1 c)] : Cache)).2 =
      ([((Mode.normal, 1000, true, 1), d15 c), ((Mode.normal, 700, true, 2), d14 c), ((Mode.normal, 500, true, 3), d13 c), ((Mode.normal, 600, true, 2), d10 c), ((Mode.normal, 400, true, 3), d8 c), ((Mode.normal, 500, true, 2), d7 c), ((Mode.sqrt, 100, true, 1), d5 c), ((Mode.sqrt, 70, true, 1), d4 c), ((Mode.sqrt, 30, true, 2), d3 c), ((Mode.sqrt, 50, true, 1), d2 c), ((Mode.sqrt, 50, false, 1), d1 c)] : Cache) := rfl
  have ha13 : (calcDurationCached c.area c.cf c.sf Mode.normal 400 true 3 30
      ([((Mode.normal, 1000, true, 1), d15 c), ((Mode.normal, 700, true, 2), d14 c), ((Mode.normal, 500, true, 3), d13 c), ((Mode.normal, 600, true, 2), d10 c), ((Mode.normal, 400, true, 3), d8 c), ((Mode.normal, 500, true, 2), d7 c), ((Mode.sqrt, 100, true, 1), d5 c), ((Mode.sqrt, 70, true, 1), d4 c), ((Mode.sqrt, 30, true, 2), d3 c), ((Mode.sqrt, 50, true, 1), d2 c), ((Mode.sqrt, 50, false, 1), d1 c)] : Cache)).1 = d16 c := rfl
  have hb13 : (calcDurationCached c.area c.cf c.sf Mode.normal 400 true 3 30
      ([((Mode.normal, 1000, true, 1), d15 c), ((Mode.normal, 700, true, 2), d14 c), ((Mode.normal, 500, true, 3), d13 c), ((Mode.normal, 600, true, 2), d10 c), ((Mode.normal, 400, true, 3), d8 c), ((Mode.normal, 500, true, 2), d7 c), ((Mode.sqrt, 100, true, 1), d5 c), ((Mode.sqrt, 70, true, 1), d4 c), ((Mode.sqrt, 30, true, 2), d3 c), ((Mode.sqrt, 50, true, 1), d2 c), ((Mode.sqrt, 50, false, 1), d1 c)] : Cache)).2 =
      ([((Mode.normal, 1000, true, 1), d15 c), ((Mode.normal, 700, true, 2), d14 c), ((Mode.normal, 500, true, 3), d13 c), ((Mode.normal, 600, true, 2), d10 c), ((Mode.normal, 400, true, 3), d8 c), ((Mode.normal, 500, true, 2), d7 c), ((Mode.sqrt, 100, true, 1), d5 c), ((Mode.sqrt, 70, true, 1), d4 c), ((Mode.sqrt, 30, true, 2), d3 c), ((Mode.sqrt, 50, true, 1), d2 c), ((Mode.sqrt, 50, false, 1), d1 c)] : Cache) := rfl
  have ha14 : (calcDurationCached c.area c.cf c.sf Mode.normal 500 true 3 30
      ([((Mode.normal, 1000, true, 1), d15 c), ((Mode.normal, 700, true, 2), d14 c), ((Mode.normal, 500, true, 3), d13 c), ((Mode.normal, 600, true, 2), d10 c), ((Mode.normal, 400, true, 3), d8 c), ((Mode.normal, 500, true, 2), d7 c), ((Mode.sqrt, 100, true, 1), d5 c), ((Mode.sqrt, 70, true, 1), d4 c), ((Mode.sqrt, 30, true, 2), d3 c), ((Mode.sqrt, 50, true, 1), d2 c), ((Mode.sqrt, 50, false, 1), d1 c)] : Cache)).1 = d18 c := rfl
  have hb14 : (calcDurationCached c.area c.cf c.sf Mode.normal 500 true 3 30
      ([((Mode.normal, 1000, true, 1), d15 c), ((Mode.normal, 700, true, 2), d14 c), ((Mode.normal, 500, true, 3), d13 c), ((Mode.normal, 600, true, 2), d10 c), ((Mode.normal, 400, true, 3), d8 c), ((Mode.normal, 500, true, 2), d7 c), ((Mode.sqrt, 100, true, 1), d5 c), ((Mode.sqrt, 70, true, 1), d4 c), ((Mode.sqrt, 30, true, 2), d3 c), ((Mode.sqrt, 50, true, 1), d2 c), ((Mode.sqrt, 50, false, 1), d1 c)] : Cache)).2 =
      ([((Mode.normal, 1000, true, 1), d15 c), ((Mode.normal, 700, true, 2), d14 c), ((Mode.normal, 500, true, 3), d13 c), ((Mode.normal, 600, true, 2), d10 c), ((Mode.normal, 400, true, 3), d8 c), ((Mode.normal, 500, true, 2), d7 c), ((Mode.sqrt, 100, true, 1), d5 c), ((Mode.sqrt, 70, true, 1), d4 c), ((Mode.sqrt, 30, true, 2), d3 c), ((Mode.sqrt, 50, true, 1), d2 c), ((Mode.sqrt, 50, false, 1), d1 c)] : Cache) := rfl
  have ha15 : (calcDurationCached c.area c.cf c.sf Mode.normal 500 true 2 30
      ([((Mode.normal, 1000, true, 1), d15 c), ((Mode.normal, 700, true, 2), d14 c), ((Mode.normal, 500, true, 3), d13 c), ((Mode.normal, 600, true, 2), d10 c), ((Mode.normal, 400, true, 3), d8 c), ((Mode.normal, 500, true, 2), d7 c), ((Mode.sqrt, 100, true, 1), d5 c), ((Mode.sqrt, 70, true, 1), d4 c), ((Mode.sqrt, 30, true, 2), d3 c), ((Mode.sqrt, 50, true, 1), d2 c), ((Mode.sqrt, 50, false, 1), d1 c)] : Cache)).1 = d19 c := rfl
  have hb15 : (calcDurationCached c.area c.cf c.sf Mode.normal 500 true 2 30
      ([((Mode.normal, 1000, true, 1), d15 c), ((Mode.normal, 700, true, 2), d14 c), ((Mode.normal, 500, true, 3), d13 c), ((Mode.normal, 600, true, 2), d10 c), ((Mode.normal, 400, true, 3), d8 c), ((Mode.normal, 500, true, 2), d7 c), ((Mode.sqrt, 100, true, 1), d5 c), ((Mode.sqrt, 70, true, 1), d4 c), ((Mode.sqrt, 30, true, 2), d3 c), ((Mode.sqrt, 50, true, 1), d2 c), ((Mode.sqrt, 50, false, 1), d1 c)] : Cache)).2 =
      ([((Mode.normal, 1000, true, 1), d15 c), ((Mode.normal, 700, true, 2), d14 c), ((Mode.normal, 500, true, 3), d13 c), ((Mode.normal, 600, true, 2), d10 c), ((Mode.normal, 400, true, 3), d8 c), ((Mode.normal, 500, true, 2), d7 c), ((Mode.sqrt, 100, true, 1), d5 c), ((Mode.sqrt, 70, true, 1), d4 c), ((Mode.sqrt, 30, true, 2), d3 c), ((Mode.sqrt, 50, true, 1), d2 c), ((Mode.sqrt, 50, false, 1), d1 c)] : Cache) := rfl
  have ha16 : (calcDurationCached c.area c.cf c.sf Mode.normal 1000 false 1 30
      ([((Mode.normal, 1000, true, 1), d15 c), ((Mode.normal, 700, true, 2), d14 c), ((Mode.normal, 500, true, 3), d13 c), ((Mode.normal, 600, true, 2), d10 c), ((Mode.normal, 400, true, 3), d8 c), ((Mode.normal, 500, true, 2), d7 c), ((Mode.sqrt, 100, true, 1), d5 c), ((Mode.sqrt, 70, true, 1), d4 c), ((Mode.sqrt, 30, true, 2), d3 c), ((Mode.sqrt, 50, true, 1), d2 c), ((Mode.sqrt, 50, false, 1), d1 c)] : Cache)).1 = d22 c := rfl
  have hb16 : (calcDurationCached c.area c.cf c.sf Mode.normal 1000 false 1 30
      ([((Mode.normal, 1000, true, 1), d15 c), ((Mode.normal, 700, true, 2), d14 c), ((Mode.normal, 500, true, 3), d13 c), ((Mode.normal, 600, true, 2), d10 c), ((Mode.normal, 400, true, 3), d8 c), ((Mode.normal, 500, true, 2), d7 c), ((Mode.sqrt, 100, true, 1), d5 c), ((Mode.sqrt, 70, true, 1), d4 c), ((Mode.sqrt, 30, true, 2), d3 c), ((Mode.sqrt, 50, true, 1), d2 c), ((Mode.sqrt, 50, false, 1), d1 c)] : Cache)).2 =
      ([((Mode.normal, 1000, false, 1), d22 c), ((Mode.normal, 1000, true, 1), d15 c), ((Mode.normal, 700, true, 2), d14 c), ((Mode.normal, 500, true, 3), d13 c), ((Mode.normal, 600, true, 2), d10 c), ((Mode.normal, 400, true, 3), d8 c), ((Mode.normal, 500, true, 2), d7 c), ((Mode.sqrt, 100, true, 1), d5 c), ((Mode.sqrt, 70, true, 1), d4 c), ((Mode.sqrt, 30, true, 2), d3 c), ((Mode.sqrt, 50, true, 1), d2 c), ((Mode.sqrt, 50, false, 1), d1 c)] : Cache) := rfl
  have ha17 : (calcDurationCached c.area c.cf c.sf Mode.normal 2000 false 1 30
      ([((Mode.normal, 1000, false, 1), d22 c), ((Mode.normal, 1000, true, 1), d15 c), ((Mode.normal, 700, true, 2), d14 c), ((Mode.normal, 500, true, 3), d13 c), ((Mode.normal, 600, true, 2), d10 c), ((Mode.normal, 400, true, 3), d8 c), ((Mode.normal, 500, true, 2), d7 c), ((Mode.sqrt, 100, true, 1), d5 c), ((Mode.sqrt, 70, true, 1), d4 c), ((Mode.sqrt, 30, true, 2), d3 c), ((Mode.sqrt, 50, true, 1), d2 c), ((Mode.sqrt, 50, false, 1), d1 c)] : Cache)).1 = d24 c := rfl
  have hb17 : (calcDurationCached c.area c.cf c.sf Mode.normal 2000 false 1 30
      ([((Mode.normal, 1000, false, 1), d22 c), ((Mode.normal, 1000, true, 1), d15 c), ((Mode.normal, 700, true, 2), d14 c), ((Mode.normal, 500, true, 3), d13 c), ((Mode.normal, 600, true, 2), d10 c), ((Mode.normal, 400, true, 3), d8 c), ((Mode.normal, 500, true, 2), d7 c), ((Mode.sqrt, 100, true, 1), d5 c), ((Mode.sqrt, 70, true, 1), d4 c), ((Mode.sqrt, 30, true, 2), d3 c), ((Mode.sqrt, 50, true, 1), d2 c), ((Mode.sqrt, 50, false, 1), d1 c)] : Cache)).2 =
      ([((Mode.normal, 2000, false, 1), d24 c), ((Mode.normal, 1000, false, 1), d22 c), ((Mode.normal, 1000, true, 1), d15 c), ((Mode.normal, 700, true, 2), d14 c), ((Mode.normal, 500, true, 3), d13 c), ((Mode.normal, 600, true, 2), d10 c), ((Mode.normal, 400, true, 3), d8 c), ((Mode.normal, 500, true, 2), d7 c), ((Mode.sqrt, 100, true, 1), d5 c), ((Mode.sqrt, 70, true, 1), d4 c), ((Mode.sqrt, 30, true, 2), d3 c), ((Mode.sqrt, 50, true, 1), d2 c), ((Mode.sqrt, 50, false, 1), d1 c)] : Cache) := rfl
  simp only [rawScheduleCached, ha1, hb1, ha2, hb2, ha3, hb3, ha4, hb4, ha5, hb5, ha6, hb6, ha7, hb7, ha8, hb8, ha9, hb9, ha10, hb10, ha11, hb11, ha12, hb12, ha13, hb13, ha14, hb14, ha15, hb15, ha16, hb16, ha17, hb17]
  rfl

/-- C1 counterexample: on the spec's own worked example
(`area_sqft = 1000`, `building_area_ratio = 0.5`, `num_rooms = 5`,
`num_windows_doors = 10`, start day 0), task 6's `start_date` is day 13
(task 5's start), not task 5's `end_date` (day 15): the source never
advances the cursor after appending task 5, so the curing task starts at
the pour's start date, contradicting the claim that it starts at the
pour's end date. -/
theorem C1_curing_counterexample :
    ¬ (((generateSchedule F0 P0 0).get? 5).map (fun t => t.start_date) =
       ((generateSchedule F0 P0 0).get? 4).map (fun t => t.end_date)) := by
  intro h
  have h2 : some (s6 c0) = some (e5 c0) := h
  injection h2 with h3
  have h4 : s5 c0 = s5 c0 + d5 c0 := h3
  have h5 : d5 c0 = 2 := d5_c0
  omega

/-- C1 (amended): in the sequential chain of tasks 1–10, task 6
(Foundation Curing) has a fixed duration of 7 days, its `start_date`
equals task 5's `start_date` (the cursor is not advanced after task 5, so
curing is scheduled from the pour's start, not its end), and task 7's
`start_date` equals task 6's `end_date + 1` day, for every input. -/
theorem C1_curing_schedule (f : Features) (p : ProjectInfo) (now : ℤ) :
    ∃ t5 t6 t7 : FullTask,
      (generateSchedule f p now).get? 4 = some t5 ∧
      (generateSchedule f p now).get? 5 = some t6 ∧
      (generateSchedule f p now).get? 6 = some t7 ∧
      t6.duration = 7 ∧
      t6.start_date = t5.start_date ∧
      t6.end_date = t6.start_date + 7 ∧
      t7.start_date = t6.end_date + 1 :=
  ⟨_, _, _, rfl, rfl, rfl, rfl, rfl, rfl, rfl⟩

/-- C2: for every input, task 15's `start_date` equals
`max(end_date of tasks 11, 12, 13, 14) + 1` day and task 23's `start_date`
equals `max(end_date of tasks 21, 22) + 1` day (the two fork/join points
of the builder). -/
theorem C2_join_invariant (f : Features) (p : ProjectInfo) (now : ℤ) :
    ∃ t11 t12 t13 t14 t15 t21 t22 t23 : FullTask,
      (generateSchedule f p now).get? 10 = some t11 ∧
      (generateSchedule f p now).get? 11 = some t12 ∧
      (generateSchedule f p now).get? 12 = some t13 ∧
      (generateSchedule f p now).get? 13 = some t14 ∧
      (generateSchedule f p now).get? 14 = some t15 ∧
      (generateSchedule f p now).get? 20 = some t21 ∧
      (generateSchedule f p now).get? 21 = some t22 ∧
      (generateSchedule f p now).get? 22 = some t23 ∧
      t15.start_date =
        max (max (max t11.end_date t12.end_date) t13.end_date) t14.end_date + 1 ∧
      t23.start_date = max t21.end_date t22.end_date + 1 := by
  refine ⟨_, _, _, _, _, _, _, _, rfl, rfl, rfl, rfl, rfl, rfl, rfl, rfl, ?_, rfl⟩
  show max (max (max (e12 (mkCtx f p now)) (e13 (mkCtx f p now)))
        (e14 (mkCtx f p now))) (e11 (mkCtx f p now)) + 1 =
      max (max (max (e11 (mkCtx f p now)) (e12 (mkCtx f p now)))
        (e13 (mkCtx f p now))) (e14 (mkCtx f p now)) + 1
  omega

/-- C3 counterexample: the source's clamp (`if area_sqft > 10000:
area_sqft = 10000`) leaves the value `-1` untouched, while the claimed
clamp to `[0, 10000]` would map it to 0: nothing in the code treats values
below 0 as 0. -/
theorem C3_clamp_counterexample : clampAreaInt (-1) ≠ specClampArea (-1) := by
  decide

/-- C3 (amended): `area_sqft` is clamped only from above: the code's clamp
equals `min area 10000` on every number (values above 10000 are treated as
exactly 10000 and are not rejected with an error, values below 0 pass
through unclamped), and the schedule built for any `area_sqft > 10000`
coincides with the one built for exactly 10000. -/
theorem C3_upper_clamp_only :
    (∀ a : ℤ, clampAreaInt a = min a 10000) ∧
    (∀ (f : Features) (p : ProjectInfo) (now : ℤ), 10000 < p.area_sqft →
      generateSchedule f p now = generateSchedule f ⟨p.start_input, 10000⟩ now) := by
  constructor
  · intro a
    unfold clampAreaInt
    split_ifs <;> omega
  · intro f p now h
    have hc : mkCtx f p now = mkCtx f ⟨p.start_input, 10000⟩ now := by
      simp [mkCtx, clampArea, h]
    simp only [generateSchedule, hc]

/-- Witness for C3 (amended): `area_sqft = 999999` yields exactly the
schedule of `area_sqft = 10000`. -/
theorem C3_upper_clamp_only_witness :
    10000 < (999999 : ℕ) ∧
      generateSchedule F0 ⟨.dt 0, 999999⟩ 0 = generateSchedule F0 ⟨.dt 0, 10000⟩ 0 :=
  ⟨by norm_num, C3_upper_clamp_only.2 F0 ⟨.dt 0, 999999⟩ 0 (by norm_num)⟩

/-- C8: the complexity factor is monotonically non-decreasing in
`building_area_ratio`, in `num_rooms` (through its clamp at 50) and in
`num_windows_doors` (through its clamp at 100), and never exceeds 3.0. -/
theorem C8_complexity_monotone :
    (∀ bar bar' : ℚ, ∀ rooms wd : ℕ, bar ≤ bar' →
      complexityFactor bar rooms wd ≤ complexityFactor bar' rooms wd) ∧
    (∀ bar : ℚ, ∀ r r' wd : ℕ, r ≤ r' →
      complexityFactor bar (clampRooms r) wd ≤ complexityFactor bar (clampRooms r') wd) ∧
    (∀ bar : ℚ, ∀ rooms w w' : ℕ, w ≤ w' →
      complexityFactor bar rooms (clampWd w) ≤ complexityFactor bar rooms (clampWd w')) ∧
    (∀ bar : ℚ, ∀ rooms wd : ℕ, complexityFactor bar rooms wd ≤ 3) := by
  refine ⟨?_, ?_, ?_, ?_⟩
  · intro bar bar' rooms wd h
    apply min_le_min _ le_rfl
    gcongr
  · intro bar r r' wd h
    apply min_le_min _ le_rfl
    have : (clampRooms r : ℚ) ≤ (clampRooms r' : ℚ) := by
      exact_mod_cast min_le_min h (le_refl 50)
    gcongr
  · intro bar rooms w w' h
    apply min_le_min _ le_rfl
    have : (clampWd w : ℚ) ≤ (clampWd w' : ℚ) := by
      exact_mod_cast min_le_min h (le_refl 100)
    gcongr
  · intro bar rooms wd
    exact min_le_right _ _

/-- Witness for C8 at concrete inputs. -/
theorem C8_complexity_monotone_witness :
    ((0 : ℚ) ≤ 1 ∧ complexityFactor 0 5 10 ≤ complexityFactor 1 5 10) ∧
    ((2 : ℕ) ≤ 7 ∧
      complexityFactor (1/2) (clampRooms 2) 10 ≤ complexityFactor (1/2) (clampRooms 7) 10) ∧
    ((3 : ℕ) ≤ 9 ∧
      complexityFactor (1/2) 5 (clampWd 3) ≤ complexityFactor (1/2) 5 (clampWd 9)) ∧
    complexityFactor (1/2) 5 10 ≤ 3 :=
  ⟨⟨by norm_num, C8_complexity_monotone.1 0 1 5 10 (by norm_num)⟩,
   ⟨by norm_num, C8_complexity_monotone.2.1 (1/2) 2 7 10 (by norm_num)⟩,
   ⟨by norm_num, C8_complexity_monotone.2.2.1 (1/2) 5 3 9 (by norm_num)⟩,
   C8_complexity_monotone.2.2.2 (1/2) 5 10⟩

/-- C9: a `start_date` that is neither a `datetime` nor convertible to one
is replaced by the current timestamp, and the build completes normally
(producing the same 25-task schedule as an explicit start at `now`)
instead of raising to the caller. -/
theorem C9_invalid_start_fallback (f : Features) (area : ℕ) (now : ℤ) :
    generateSchedule f ⟨.invalid, area⟩ now = generateSchedule f ⟨.dt now, area⟩ now ∧
    (generateSchedule f ⟨.invalid, area⟩ now).length = 25 :=
  ⟨rfl, rfl⟩

lemma toFull_toTask (sch : List Task) (today : ℤ) (u : Task) :
    (toFull sch today u).toTask = u := rfl

lemma toFull_dependencies (sch : List Task) (today : ℤ) (u : Task) :
    (toFull sch today u).dependencies = resolveDeps sch u.predecessor_tasks := rfl

lemma toFull_completion (sch : List Task) (today : ℤ) (u : Task) :
    (toFull sch today u).completion_percentage =
      completionPercentage u.start_date u.end_date today := rfl

lemma task1_task_id (c : Ctx) : (task1 c).task_id = 1 := rfl
lemma task1_start (c : Ctx) : (task1 c).start_date = s1 c := rfl
lemma task1_end (c : Ctx) : (task1 c).end_date = e1 c := rfl
lemma task1_duration (c : Ctx) : (task1 c).duration = d1 c := rfl
lemma task1_preds (c : Ctx) : (task1 c).predecessor_tasks = [] := rfl

lemma task2_task_id (c : Ctx) : (task2 c).task_id = 2 := rfl
lemma task2_start (c : Ctx) : (task2 c).start_date = s2 c := rfl
lemma task2_end (c : Ctx) : (task2 c).end_date = e2 c := rfl
lemma task2_duration (c : Ctx) : (task2 c).duration = d2 c := rfl
lemma task2_preds (c : Ctx) : (task2 c).predecessor_tasks = [1] := rfl

lemma task3_task_id (c : Ctx) : (task3 c).task_id = 3 := rfl
lemma task3_start (c : Ctx) : (task3 c).start_date = s3 c := rfl
lemma task3_end (c : Ctx) : (task3 c).end_date = e3 c := rfl
lemma task3_duration (c : Ctx) : (task3 c).duration = d3 c := rfl
lemma task3_preds (c : Ctx) : (task3 c).predecessor_tasks = [2] := rfl

lemma task4_task_id (c : Ctx) : (task4 c).task_id = 4 := rfl
lemma task4_start (c : Ctx) : (task4 c).start_date = s4 c := rfl
lemma task4_end (c : Ctx) : (task4 c).end_date = e4 c := rfl
lemma task4_duration (c : Ctx) : (task4 c).duration = d4 c := rfl
lemma task4_preds (c : Ctx) : (task4 c).predecessor_tasks = [3] := rfl

lemma task5_task_id (c : Ctx) : (task5 c).task_id = 5 := rfl
lemma task5_start (c : Ctx) : (task5 c).start_date = s5 c := rfl
lemma task5_end (c : Ctx) : (task5 c).end_date = e5 c := rfl
lemma task5_duration (c : Ctx) : (task5 c).duration = d5 c := rfl
lemma task5_preds (c : Ctx) : (task5 c).predecessor_tasks = [4] := rfl

lemma task6_task_id (c : Ctx) : (task6 c).task_id = 6 := rfl
lemma task6_start (c : Ctx) : (task6 c).start_date = s6 c := rfl
lemma task6_end (c : Ctx) : (task6 c).end_date = e6 c := rfl
lemma task6_duration (c : Ctx) : (task6 c).duration = d6 c := rfl
lemma task6_preds (c : Ctx) : (task6 c).predecessor_tasks = [5] := rfl

lemma task7_task_id (c : Ctx) : (task7 c).task_id = 7 := rfl
lemma task7_start (c : Ctx) : (task7 c).start_date = s7 c := rfl
lemma task7_end (c : Ctx) : (task7 c).end_date = e7 c := rfl
lemma task7_duration (c : Ctx) : (task7 c).duration = d7 c := rfl
lemma task7_preds (c : Ctx) : (task7 c).predecessor_tasks = [6] := rfl

lemma task8_task_id (c : Ctx) : (task8 c).task_id = 8 := rfl
lemma task8_start (c : Ctx) : (task8 c).start_date = s8 c := rfl
lemma task8_end (c : Ctx) : (task8 c).end_date = e8 c := rfl
lemma task8_duration (c : Ctx) : (task8 c).duration = d8 c := rfl
lemma task8_preds (c : Ctx) : (task8 c).predecessor_tasks = [7] := rfl

lemma task9_task_id (c : Ctx) : (task9 c).task_id = 9 := rfl
lemma task9_start (c : Ctx) : (task9 c).start_date = s9 c := rfl
lemma task9_end (c : Ctx) : (task9 c).end_date = e9 c := rfl
lemma task9_duration (c : Ctx) : (task9 c).duration = d9 c := rfl
lemma task9_preds (c : Ctx) : (task9 c).predecessor_tasks = [8] := rfl

lemma task10_task_id (c : Ctx) : (task10 c).task_id = 10 := rfl
lemma task10_start (c : Ctx) : (task10 c).start_date = s10 c := rfl
lemma task10_end (c : Ctx) : (task10 c).end_date = e10 c := rfl
lemma task10_duration (c : Ctx) : (task10 c).duration = d10 c := rfl
lemma task10_preds (c : Ctx) : (task10 c).predecessor_tasks = [9] := rfl

lemma task11_task_id (c : Ctx) : (task11 c).task_id = 11 := rfl
lemma task11_start (c : Ctx) : (task11 c).start_date = s11 c := rfl
lemma task11_end (c : Ctx) : (task11 c).end_date = e11 c := rfl
lemma task11_duration (c : Ctx) : (task11 c).duration = d11 c := rfl
lemma task11_preds (c : Ctx) : (task11 c).predecessor_tasks = [10] := rfl

lemma task12_task_id (c : Ctx) : (task12 c).task_id = 12 := rfl
lemma task12_start (c : Ctx) : (task12 c).start_date = s12 c := rfl
lemma task12_end (c : Ctx) : (task12 c).end_date = e12 c := rfl
lemma task12_duration (c : Ctx) : (task12 c).duration = d12 c := rfl
lemma task12_preds (c : Ctx) : (task12 c).predecessor_tasks = [9] := rfl

lemma task13_task_id (c : Ctx) : (task13 c).task_id = 13 := rfl
lemma task13_start (c : Ctx) : (task13 c).start_date = s13 c := rfl
lemma task13_end (c : Ctx) : (task13 c).end_date = e13 c := rfl
lemma task13_duration (c : Ctx) : (task13 c).duration = d13 c := rfl
lemma task13_preds (c : Ctx) : (task13 c).predecessor_tasks = [9] := rfl

lemma task14_task_id (c : Ctx) : (task14 c).task_id = 14 := rfl
lemma task14_start (c : Ctx) : (task14 c).start_date = s14 c := rfl
lemma task14_end (c : Ctx) : (task14 c).end_date = e14 c := rfl
lemma task14_duration (c : Ctx) : (task14 c).duration = d14 c := rfl
lemma task14_preds (c : Ctx) : (task14 c).predecessor_tasks = [9] := rfl

lemma task15_task_id (c : Ctx) : (task15 c).task_id = 15 := rfl
lemma task15_start (c : Ctx) : (task15 c).start_date = s15 c := rfl
lemma task15_end (c : Ctx) : (task15 c).end_date = e15 c := rfl
lemma task15_duration (c : Ctx) : (task15 c).duration = d15 c := rfl
lemma task15_preds (c : Ctx) : (task15 c).predecessor_tasks = [12, 13, 14] := rfl

lemma task16_task_id (c : Ctx) : (task16 c).task_id = 16 := rfl
lemma task16_start (c : Ctx) : (task16 c).start_date = s16 c := rfl
lemma task16_end (c : Ctx) : (task16 c).end_date = e16 c := rfl
lemma task16_duration (c : Ctx) : (task16 c).duration = d16 c := rfl
lemma task16_preds (c : Ctx) : (task16 c).predecessor_tasks = [15] := rfl

lemma task17_task_id (c : Ctx) : (task17 c).task_id = 17 := rfl
lemma task17_start (c : Ctx) : (task17 c).start_date = s17 c := rfl
lemma task17_end (c : Ctx) : (task17 c).end_date = e17 c := rfl
lemma task17_duration (c : Ctx) : (task17 c).duration = d17 c := rfl
lemma task17_preds (c : Ctx) : (task17 c).predecessor_tasks = [16] := rfl

lemma task18_task_id (c : Ctx) : (task18 c).task_id = 18 := rfl
lemma task18_start (c : Ctx) : (task18 c).start_date = s18 c := rfl
lemma task18_end (c : Ctx) : (task18 c).end_date = e18 c := rfl
lemma task18_duration (c : Ctx) : (task18 c).duration = d18 c := rfl
lemma task18_preds (c : Ctx) : (task18 c).predecessor_tasks = [17] := rfl

lemma task19_task_id (c : Ctx) : (task19 c).task_id = 19 := rfl
lemma task19_start (c : Ctx) : (task19 c).start_date = s19 c := rfl
lemma task19_end (c : Ctx) : (task19 c).end_date = e19 c := rfl
lemma task19_duration (c : Ctx) : (task19 c).duration = d19 c := rfl
lemma task19_preds (c : Ctx) : (task19 c).predecessor_tasks = [18] := rfl

lemma task20_task_id (c : Ctx) : (task20 c).task_id = 20 := rfl
lemma task20_start (c : Ctx) : (task20 c).start_date = s20 c := rfl
lemma task20_end (c : Ctx) : (task20 c).end_date = e20 c := rfl
lemma task20_duration (c : Ctx) : (task20 c).duration = d20 c := rfl
lemma task20_preds (c : Ctx) : (task20 c).predecessor_tasks = [19] := rfl

lemma task21_task_id (c : Ctx) : (task21 c).task_id = 21 := rfl
lemma task21_start (c : Ctx) : (task21 c).start_date = s21 c := rfl
lemma task21_end (c : Ctx) : (task21 c).end_date = e21 c := rfl
lemma task21_duration (c : Ctx) : (task21 c).duration = d21 c := rfl
lemma task21_preds (c : Ctx) : (task21 c).predecessor_tasks = [20] := rfl

lemma task22_task_id (c : Ctx) : (task22 c).task_id = 22 := rfl
lemma task22_start (c : Ctx) : (task22 c).start_date = s22 c := rfl
lemma task22_end (c : Ctx) : (task22 c).end_date = e22 c := rfl
lemma task22_duration (c : Ctx) : (task22 c).duration = d22 c := rfl
lemma task22_preds (c : Ctx) : (task22 c).predecessor_tasks = [20] := rfl

lemma task23_task_id (c : Ctx) : (task23 c).task_id = 23 := rfl
lemma task23_start (c : Ctx) : (task23 c).start_date = s23 c := rfl
lemma task23_end (c : Ctx) : (task23 c).end_date = e23 c := rfl
lemma task23_duration (c : Ctx) : (task23 c).duration = d23 c := rfl
lemma task23_preds (c : Ctx) : (task23 c).predecessor_tasks = [21, 22] := rfl

lemma task24_task_id (c : Ctx) : (task24 c).task_id = 24 := rfl
lemma task24_start (c : Ctx) : (task24 c).start_date = s24 c := rfl
lemma task24_end (c : Ctx) : (task24 c).end_date = e24 c := rfl
lemma task24_duration (c : Ctx) : (task24 c).duration = d24 c := rfl
lemma task24_preds (c : Ctx) : (task24 c).predecessor_tasks = [23] := rfl

lemma task25_task_id (c : Ctx) : (task25 c).task_id = 25 := rfl
lemma task25_start (c : Ctx) : (task25 c).start_date = s25 c := rfl
lemma task25_end (c : Ctx) : (task25 c).end_date = e25 c := rfl
lemma task25_duration (c : Ctx) : (task25 c).duration = d25 c := rfl
lemma task25_preds (c : Ctx) : (task25 c).predecessor_tasks = [24] := rfl

/-- C4: the memoization cache does not change the output: the builder
with the per-run calculation cache produces exactly the task list of the
reference builder that re-evaluates the duration formula afresh at every
call site, for every input.  (All call sites use the default
`maximum_days = 30`, so no two call sites share a cache key while
disagreeing on the omitted `maximum_days` component.) -/
theorem C4_memoization_transparent (f : Features) (p : ProjectInfo) (now : ℤ) :
    generateScheduleCached f p now = generateSchedule f p now := by
  simp only [generateScheduleCached, generateSchedule, rawScheduleCached_eq]

/-- C7: for any dates, the completion percentage is 0 before the start,
100 past the end, and otherwise the truncated linear interpolation clamped
to `[0, 100]` with 50 substituted on a zero-day span (stated for
`start_date ≤ end_date`, which holds for every task); it always lies in
`[0, 100]`; and every task of the returned schedule carries exactly this
value computed from its own dates and the current day. -/
theorem C7_completion_rule :
    (∀ s e today : ℤ, s ≤ e →
      completionPercentage s e today = specCompletion s e today) ∧
    (∀ s e today : ℤ,
      0 ≤ completionPercentage s e today ∧ completionPercentage s e today ≤ 100) ∧
    (∀ (f : Features) (p : ProjectInfo) (now : ℤ),
      ∀ t ∈ generateSchedule f p now,
        t.completion_percentage = completionPercentage t.start_date t.end_date now) := by
  refine ⟨?_, ?_, ?_⟩
  · intro s e today hse
    simp only [completionPercentage, specCompletion]
    by_cases h1 : e < today
    · rw [if_pos h1, if_neg (by omega : ¬ s > today), if_pos h1]
    · rw [if_neg h1]
      by_cases h2 : s > today
      · rw [if_pos h2, if_pos h2]
      · rw [if_neg h2, if_neg h2, if_neg h1]
        by_cases h3 : (0 : ℤ) < e - s
        · rw [if_pos h3, if_neg (by omega : ¬ e - s = 0)]
          have h4 : (0 : ℚ) ≤ ((today - s : ℤ) : ℚ) := by
            exact_mod_cast (by omega : (0 : ℤ) ≤ today - s)
          have h5 : (0 : ℚ) ≤ ((e - s : ℤ) : ℚ) := by
            exact_mod_cast (by omega : (0 : ℤ) ≤ e - s)
          rw [pyInt_eq_floor (by positivity)]
          congr 2
          push_cast
          ring
        · rw [if_neg h3, if_pos (by omega : e - s = 0)]
  · intro s e today
    constructor <;>
      (simp only [completionPercentage]; split_ifs <;> omega)
  · intro f p now t ht
    simp only [generateSchedule, List.mem_map] at ht
    obtain ⟨u, _, rfl⟩ := ht
    rfl

/-- Witness for C7 at concrete dates (a two-day task, one day in, and the
first task of the concrete schedule). -/
theorem C7_completion_rule_witness :
    ((0 : ℤ) ≤ 2 ∧ completionPercentage 0 2 1 = specCompletion 0 2 1) ∧
    (0 ≤ completionPercentage 0 2 1 ∧ completionPercentage 0 2 1 ≤ 100) ∧
    ((generateSchedule F0 P0 0).get ⟨0, by decide⟩ ∈ generateSchedule F0 P0 0 ∧
      ((generateSchedule F0 P0 0).get ⟨0, by decide⟩).completion_percentage =
        completionPercentage
          ((generateSchedule F0 P0 0).get ⟨0, by decide⟩).start_date
          ((generateSchedule F0 P0 0).get ⟨0, by decide⟩).end_date 0) :=
  ⟨⟨by norm_num, C7_completion_rule.1 0 2 1 (by norm_num)⟩,
   C7_completion_rule.2.1 0 2 1,
   List.get_mem _ _ _,
   C7_completion_rule.2.2 F0 P0 0 _ (List.get_mem _ _ _)⟩

lemma windowDaysRaw_nonneg {cf sf : ℚ} (hcf : 0 ≤ cf) (hsf : 0 ≤ sf)
    (wd : ℕ) : 0 ≤ windowDaysRaw wd cf sf :=
  pyInt_nonneg (mul_nonneg (mul_nonneg (Nat.cast_nonneg _) hcf) hsf)

lemma plumbingDaysRaw_nonneg {cf sf : ℚ} (hcf : 0 ≤ cf) (hsf : 0 ≤ sf)
    (rooms : ℕ) : 0 ≤ plumbingDaysRaw rooms cf sf :=
  pyInt_nonneg (mul_nonneg (mul_nonneg (Nat.cast_nonneg _) hcf) hsf)

lemma doorDaysRaw_nonneg {cf sf : ℚ} (hcf : 0 ≤ cf) (hsf : 0 ≤ sf)
    (rooms : ℕ) : 0 ≤ doorDaysRaw rooms cf sf :=
  pyInt_nonneg (mul_nonneg (mul_nonneg (Nat.cast_nonneg _) hcf) hsf)

lemma cabinetDaysRaw_nonneg {cf sf : ℚ} (hcf : 0 ≤ cf) (hsf : 0 ≤ sf)
    (rooms : ℕ) : 0 ≤ cabinetDaysRaw rooms cf sf :=
  pyInt_nonneg (mul_nonneg (mul_nonneg (Nat.cast_nonneg _) hcf) hsf)

lemma plumbingFixtureDaysRaw_nonneg {sf : ℚ} (hsf : 0 ≤ sf)
    (rooms : ℕ) : 0 ≤ plumbingFixtureDaysRaw rooms sf :=
  pyInt_nonneg (mul_nonneg (Nat.cast_nonneg _) hsf)

/-- C5: every task except the fixed curing task (id 6) and the two
fixed one-day tasks (ids 23, 25) satisfies
`duration = end_date - start_date` (dates span exactly the duration)
and `duration = min(uncapped formula result, per-task cap)`, where the
uncapped formula is the task's `calculate_duration` body (base from the
sqrt/normal divisor raised to the minimum days, scaled by the complexity
factor when enabled and then the size factor) or its inline room/window
variant. -/
theorem C5_duration_formula (f : Features) (p : ProjectInfo) (now : ℤ) :
    ∀ t ∈ generateSchedule f p now,
      t.task_id ≠ 6 → t.task_id ≠ 23 → t.task_id ≠ 25 →
      t.duration = t.end_date - t.start_date ∧
      t.duration = min (uncappedDuration (mkCtx f p now) t.task_id)
        (durationCap t.task_id) := by
  intro t ht
  simp only [generateSchedule, rawSchedule, List.map_cons, List.map_nil,
    List.mem_cons, List.not_mem_nil, or_false] at ht
  rcases ht with rfl | rfl | rfl | rfl | rfl | rfl | rfl | rfl | rfl | rfl | rfl | rfl | rfl | rfl | rfl | rfl | rfl | rfl | rfl | rfl | rfl | rfl | rfl | rfl | rfl
  all_goals intro h6 h23 h25
  any_goals exact absurd rfl h6
  any_goals exact absurd rfl h23
  any_goals exact absurd rfl h25
  all_goals refine ⟨?_, rfl⟩
  all_goals simp only [toFull_toTask, task1_start, task1_end, task2_start, task2_end, task3_start, task3_end, task4_start, task4_end, task5_start, task5_end, task6_start, task6_end, task7_start, task7_end, task8_start, task8_end, task9_start, task9_end, task10_start, task10_end, task11_start, task11_end, task12_start, task12_end, task13_start, task13_end, task14_start, task14_end, task15_start, task15_end, task16_start, task16_end, task17_start, task17_end, task18_start, task18_end, task19_start, task19_end, task20_start, task20_end, task21_start, task21_end, task22_start, task22_end, task23_start, task23_end, task24_start, task24_end, task25_start, task25_end,
    task1_duration, task2_duration, task3_duration, task4_duration, task5_duration, task6_duration, task7_duration, task8_duration, task9_duration, task10_duration, task11_duration, task12_duration, task13_duration, task14_duration, task15_duration, task16_duration, task17_duration, task18_duration, task19_duration, task20_duration, task21_duration, task22_duration, task23_duration, task24_duration, task25_duration,
    e1, e2, e3, e4, e5, e6, e7, e8, e9, e10, e11, e12, e13, e14, e15, e16, e17, e18, e19, e20, e21, e22, e23, e24, e25]
  all_goals omega

/-- Witness for C5: the first task of the concrete schedule. -/
theorem C5_duration_formula_witness :
    ((generateSchedule F0 P0 0).get ⟨0, by decide⟩ ∈ generateSchedule F0 P0 0) ∧
    ((generateSchedule F0 P0 0).get ⟨0, by decide⟩).task_id ≠ 6 ∧
    ((generateSchedule F0 P0 0).get ⟨0, by decide⟩).task_id ≠ 23 ∧
    ((generateSchedule F0 P0 0).get ⟨0, by decide⟩).task_id ≠ 25 ∧
    (((generateSchedule F0 P0 0).get ⟨0, by decide⟩).duration =
      ((generateSchedule F0 P0 0).get ⟨0, by decide⟩).end_date -
        ((generateSchedule F0 P0 0).get ⟨0, by decide⟩).start_date ∧
     ((generateSchedule F0 P0 0).get ⟨0, by decide⟩).duration =
      min (uncappedDuration (mkCtx F0 P0 0)
          ((generateSchedule F0 P0 0).get ⟨0, by decide⟩).task_id)
        (durationCap ((generateSchedule F0 P0 0).get ⟨0, by decide⟩).task_id)) :=
  ⟨List.get_mem _ _ _, by decide, by decide, by decide,
   C5_duration_formula F0 P0 0 _ (List.get_mem _ _ _)
     (by decide) (by decide) (by decide)⟩

/-- C6: for every valid input (the analysis features give a
non-negative building-area ratio), the builder returns exactly 25 tasks
whose `task_id`s are `1..25` in list order (hence strictly increasing),
and every task satisfies `end_date ≥ start_date`. -/
theorem C6_shape (f : Features) (p : ProjectInfo) (now : ℤ)
    (hbar : 0 ≤ f.building_area_ratio) :
    (generateSchedule f p now).length = 25 ∧
    (generateSchedule f p now).map (fun t => t.task_id) =
      [1, 2, 3, 4, 5, 6, 7, 8, 9, 10, 11, 12, 13, 14, 15, 16, 17, 18, 19, 20, 21, 22, 23, 24, 25] ∧
    ∀ t ∈ generateSchedule f p now, t.start_date ≤ t.end_date := by
  have hcf : 0 ≤ (mkCtx f p now).cf := complexityFactor_nonneg _ _ hbar
  have hsf : 0 ≤ (mkCtx f p now).sf := sizeFactor_nonneg _
  have h30 : (0 : ℤ) ≤ 30 := by norm_num
  have hd1 : 0 ≤ d1 (mkCtx f p now) :=
    calcDuration_nonneg hcf hsf _ _ _ _ h30
  have hd2 : 0 ≤ d2 (mkCtx f p now) :=
    calcDuration_nonneg hcf hsf _ _ _ _ h30
  have hd3 : 0 ≤ d3 (mkCtx f p now) :=
    calcDuration_nonneg hcf hsf _ _ _ _ h30
  have hd4 : 0 ≤ d4 (mkCtx f p now) :=
    calcDuration_nonneg hcf hsf _ _ _ _ h30
  have hd5 : 0 ≤ d5 (mkCtx f p now) :=
    calcDuration_nonneg hcf hsf _ _ _ _ h30
  have hd6 : 0 ≤ d6 (mkCtx f p now) := by norm_num [d6]
  have hd7 : 0 ≤ d7 (mkCtx f p now) :=
    calcDuration_nonneg hcf hsf _ _ _ _ h30
  have hd8 : 0 ≤ d8 (mkCtx f p now) :=
    calcDuration_nonneg hcf hsf _ _ _ _ h30
  have hd9 : 0 ≤ d9 (mkCtx f p now) :=
    calcDuration_nonneg hcf hsf _ _ _ _ h30
  have hd10 : 0 ≤ d10 (mkCtx f p now) :=
    calcDuration_nonneg hcf hsf _ _ _ _ h30
  have hd11 : 0 ≤ d11 (mkCtx f p now) :=
    le_min (windowDaysRaw_nonneg hcf hsf _) h30
  have hd12 : 0 ≤ d12 (mkCtx f p now) :=
    le_min (plumbingDaysRaw_nonneg hcf hsf _) h30
  have hd13 : 0 ≤ d13 (mkCtx f p now) :=
    calcDuration_nonneg hcf hsf _ _ _ _ h30
  have hd14 : 0 ≤ d14 (mkCtx f p now) :=
    calcDuration_nonneg hcf hsf _ _ _ _ h30
  have hd15 : 0 ≤ d15 (mkCtx f p now) :=
    calcDuration_nonneg hcf hsf _ _ _ _ h30
  have hd16 : 0 ≤ d16 (mkCtx f p now) :=
    calcDuration_nonneg hcf hsf _ _ _ _ h30
  have hd17 : 0 ≤ d17 (mkCtx f p now) :=
    le_min (doorDaysRaw_nonneg hcf hsf _) (by norm_num)
  have hd18 : 0 ≤ d18 (mkCtx f p now) :=
    calcDuration_nonneg hcf hsf _ _ _ _ h30
  have hd19 : 0 ≤ d19 (mkCtx f p now) :=
    calcDuration_nonneg hcf hsf _ _ _ _ h30
  have hd20 : 0 ≤ d20 (mkCtx f p now) :=
    le_min (cabinetDaysRaw_nonneg hcf hsf _) (by norm_num)
  have hd21 : 0 ≤ d21 (mkCtx f p now) :=
    le_min (plumbingFixtureDaysRaw_nonneg hsf _) (by norm_num)
  have hd22 : 0 ≤ d22 (mkCtx f p now) :=
    calcDuration_nonneg hcf hsf _ _ _ _ h30
  have hd23 : 0 ≤ d23 (mkCtx f p now) := by norm_num [d23]
  have hd24 : 0 ≤ d24 (mkCtx f p now) :=
    calcDuration_nonneg hcf hsf _ _ _ _ h30
  have hd25 : 0 ≤ d25 (mkCtx f p now) := by norm_num [d25]
  refine ⟨rfl, rfl, ?_⟩
  intro t ht
  simp only [generateSchedule, rawSchedule, List.map_cons, List.map_nil,
    List.mem_cons, List.not_mem_nil, or_false] at ht
  rcases ht with rfl | rfl | rfl | rfl | rfl | rfl | rfl | rfl | rfl | rfl | rfl | rfl | rfl | rfl | rfl | rfl | rfl | rfl | rfl | rfl | rfl | rfl | rfl | rfl | rfl
  all_goals simp only [toFull_toTask, task1_start, task1_end, task2_start, task2_end, task3_start, task3_end, task4_start, task4_end, task5_start, task5_end, task6_start, task6_end, task7_start, task7_end, task8_start, task8_end, task9_start, task9_end, task10_start, task10_end, task11_start, task11_end, task12_start, task12_end, task13_start, task13_end, task14_start, task14_end, task15_start, task15_end, task16_start, task16_end, task17_start, task17_end, task18_start, task18_end, task19_start, task19_end, task20_start, task20_end, task21_start, task21_end, task22_start, task22_end, task23_start, task23_end, task24_start, task24_end, task25_start, task25_end,
    e1, e2, e3, e4, e5, e6, e7, e8, e9, e10, e11, e12, e13, e14, e15, e16, e17, e18, e19, e20, e21, e22, e23, e24, e25]
  all_goals omega

/-- Witness for C6 on the concrete inputs of the spec's worked example. -/
theorem C6_shape_witness :
    (0 : ℚ) ≤ F0.building_area_ratio ∧
    ((generateSchedule F0 P0 0).length = 25 ∧
     (generateSchedule F0 P0 0).map (fun t => t.task_id) =
       [1, 2, 3, 4, 5, 6, 7, 8, 9, 10, 11, 12, 13, 14, 15, 16, 17, 18, 19, 20, 21, 22, 23, 24, 25] ∧
     ∀ t ∈ generateSchedule F0 P0 0, t.start_date ≤ t.end_date) :=
  ⟨by norm_num [F0], C6_shape F0 P0 0 (by norm_num [F0])⟩

/-- C10: in every returned task, each predecessor id is strictly
smaller than the task's own id (so the predecessor exists earlier in
the list), and the post-pass resolves the predecessor ids into exactly
one task name each, in the same order. -/
theorem C10_predecessors_resolve (f : Features) (p : ProjectInfo) (now : ℤ) :
    ∀ t ∈ generateSchedule f p now,
      (∀ pid ∈ t.predecessor_tasks, pid < t.task_id) ∧
      t.dependencies = t.predecessor_tasks.map taskNameOf := by
  intro t ht
  simp only [generateSchedule, rawSchedule, List.map_cons, List.map_nil,
    List.mem_cons, List.not_mem_nil, or_false] at ht
  rcases ht with rfl | rfl | rfl | rfl | rfl | rfl | rfl | rfl | rfl | rfl | rfl | rfl | rfl | rfl | rfl | rfl | rfl | rfl | rfl | rfl | rfl | rfl | rfl | rfl | rfl
  all_goals refine ⟨?_, rfl⟩
  all_goals simp only [toFull_toTask, task1_preds, task2_preds, task3_preds, task4_preds, task5_preds, task6_preds, task7_preds, task8_preds, task9_preds, task10_preds, task11_preds, task12_preds, task13_preds, task14_preds, task15_preds, task16_preds, task17_preds, task18_preds, task19_preds, task20_preds, task21_preds, task22_preds, task23_preds, task24_preds, task25_preds,
    task1_task_id, task2_task_id, task3_task_id, task4_task_id, task5_task_id, task6_task_id, task7_task_id, task8_task_id, task9_task_id, task10_task_id, task11_task_id, task12_task_id, task13_task_id, task14_task_id, task15_task_id, task16_task_id, task17_task_id, task18_task_id, task19_task_id, task20_task_id, task21_task_id, task22_task_id, task23_task_id, task24_task_id, task25_task_id]
  all_goals decide

/-- Witness for C10: task 15 of the concrete schedule, whose three
predecessors 12, 13, 14 resolve to the three rough-in task names. -/
theorem C10_predecessors_resolve_witness :
    ((generateSchedule F0 P0 0).get ⟨14, by decide⟩ ∈ generateSchedule F0 P0 0) ∧
    ((∀ pid ∈ ((generateSchedule F0 P0 0).get ⟨14, by decide⟩).predecessor_tasks,
        pid < ((generateSchedule F0 P0 0).get ⟨14, by decide⟩).task_id) ∧
      ((generateSchedule F0 P0 0).get ⟨14, by decide⟩).dependencies =
        ((generateSchedule F0 P0 0).get ⟨14, by decide⟩).predecessor_tasks.map taskNameOf) :=
  ⟨List.get_mem _ _ _,
   C10_predecessors_resolve F0 P0 0 _ (List.get_mem _ _ _)⟩

end EcoSched
